import Mathlib

/-!
Verification development for the constellagent persistent terminal session
host.  The TypeScript sources are shallowly embedded: JS strings become
`List Char` (one element per UTF-16 code unit), maps become association
lists, PTY/socket/file-system side effects become explicit effect lists, and
fallible calls return `Except`/`Option`.  Every definition follows the
corresponding source function; doc comments name the source symbol.
-/

namespace Constellagent

/-! ## In-process PTY manager: replay buffer (src PtyManager) -/

/-- Source constant `PTY_REPLAY_BUFFER_MAX_CHARS = 8_000_000`. -/
def PTY_REPLAY_BUFFER_MAX_CHARS : Nat := 8000000

/-- The replay-buffer fields of a `PtyInstance` (plus terminal geometry,
which `reattach` reports).  `outputSeq` counts every character ever emitted,
`replayChunks` is the ordered retained chunk list, `replayChars` the number
of retained characters. -/
structure PtyBufferState where
  outputSeq : Nat
  replayChunks : List (List Char)
  replayChars : Nat
  cols : Nat
  rows : Nat
deriving Repr, DecidableEq

/-- A fresh `PtyInstance`'s replay fields (`create`): empty buffer, 80x24. -/
def initPtyBuffer : PtyBufferState :=
  { outputSeq := 0, replayChunks := [], replayChars := 0, cols := 80, rows := 24 }

/-- The eviction loop inside `appendReplayChunk`:
`while (replayChars > MAX && chunks.length > 0) { shift; if (!removed) break; replayChars -= removed.length }`.
An empty string is falsy in JS, hence the explicit break branch. -/
def evictReplayChunks : List (List Char) → Nat → List (List Char) × Nat
  | [], chars => ([], chars)
  | c :: rest, chars =>
    if chars ≤ PTY_REPLAY_BUFFER_MAX_CHARS then (c :: rest, chars)
    else if c = [] then (rest, chars)
    else evictReplayChunks rest (chars - c.length)

/-- Source `appendReplayChunk(instance, chunk)`: skip empty chunks; a chunk
whose length reaches the cap replaces the whole buffer with its cap-sized
tail (`chunk.slice(chunk.length - MAX)`); otherwise push and evict oldest
chunks while over the cap. -/
def appendReplayChunk (st : PtyBufferState) (chunk : List Char) : PtyBufferState :=
  if chunk = [] then st
  else if PTY_REPLAY_BUFFER_MAX_CHARS ≤ chunk.length then
    { st with
      replayChunks := [chunk.drop (chunk.length - PTY_REPLAY_BUFFER_MAX_CHARS)],
      replayChars := (chunk.drop (chunk.length - PTY_REPLAY_BUFFER_MAX_CHARS)).length }
  else
    { st with
      replayChunks :=
        (evictReplayChunks (st.replayChunks ++ [chunk]) (st.replayChars + chunk.length)).1,
      replayChars :=
        (evictReplayChunks (st.replayChunks ++ [chunk]) (st.replayChars + chunk.length)).2 }

/-- The replay-relevant part of the `proc.onData` handler in
`PtyManager.create`: `outputSeq += data.length; appendReplayChunk(instance, data)`. -/
def ptyOnData (st : PtyBufferState) (data : List Char) : PtyBufferState :=
  appendReplayChunk { st with outputSeq := st.outputSeq + data.length } data

/-- Feeding a whole sequence of output chunks to a fresh PTY instance. -/
def runPtyOutput (chunks : List (List Char)) : PtyBufferState :=
  chunks.foldl ptyOnData initPtyBuffer

/-- Concatenation of the retained chunks (`instance.replayChunks.join('')`). -/
def bufferConcat (st : PtyBufferState) : List Char := st.replayChunks.flatten

/-- Result shape of `PtyManager.reattach`. -/
structure ReattachResult where
  ok : Bool
  replay : Option (List Char)
  baseSeq : Nat
  endSeq : Nat
  truncated : Bool
  cols : Nat
  rows : Nat
deriving Repr, DecidableEq

/-- The local `requestedSince` of `reattach`:
`typeof sinceSeq === 'number' && isFinite ? Math.max(0, Math.floor(sinceSeq)) : baseSeq`
(integral requests are modelled, so the floor is the identity). -/
def ptyReattachRequested (st : PtyBufferState) (sinceSeq : Option Int) : Nat :=
  match sinceSeq with
  | some s => (max 0 s).toNat
  | none => st.outputSeq - st.replayChars

/-- Source `PtyManager.reattach(ptyId, webContents, sinceSeq?)` for a live
instance: `baseSeq = max(0, endSeq - replayChars)` (Nat subtraction clamps
at 0 exactly like `Math.max(0, ...)`), `truncated = requestedSince < baseSeq`,
and the replay payload is
`join(replayChunks).slice(max(0, requestedSince - baseSeq))` when the buffer
is non-empty and `requestedSince < endSeq`. -/
def ptyReattach (st : PtyBufferState) (sinceSeq : Option Int) : ReattachResult :=
  { ok := true
    replay :=
      if st.replayChunks.isEmpty then none
      else if ptyReattachRequested st sinceSeq < st.outputSeq then
        some ((bufferConcat st).drop
          (ptyReattachRequested st sinceSeq - (st.outputSeq - st.replayChars)))
      else none
    baseSeq := st.outputSeq - st.replayChars
    endSeq := st.outputSeq
    truncated := decide (ptyReattachRequested st sinceSeq < st.outputSeq - st.replayChars)
    cols := st.cols
    rows := st.rows }

/-! ## Terminal host daemon (src terminal-host/index.ts + terminal-host.ts)

Sockets are modelled by numeric identifiers; PTY, socket and marker-file side
effects become explicit `HostEffect` values; the `clientId -> sockets` and
`sessionId -> session` maps become association lists.  Request payloads are
assumed well-shaped for their request type, mirroring the TypeScript `as`
casts in `handleRequest`. -/

/-- Source constant `TERMINAL_HOST_PROTOCOL_VERSION = 1`. -/
def TERMINAL_HOST_PROTOCOL_VERSION : Int := 1

inductive HostRole
  | control
  | stream
deriving DecidableEq, Repr

def roleName : HostRole → String
  | .control => "control"
  | .stream => "stream"

/-- Per-connection `ClientState`. -/
structure ClientState where
  authenticated : Bool
  clientId : Option String
  role : Option HostRole
deriving DecidableEq, Repr

/-- The fresh state given to each accepted connection. -/
def initClientState : ClientState :=
  { authenticated := false, clientId := none, role := none }

/-- Entry of the `clients` map (`ClientSockets`). -/
structure ClientSockets where
  control : Option Nat
  stream : Option Nat
deriving DecidableEq, Repr

abbrev ClientsMap := List (String × ClientSockets)

def mapLookup {α : Type} : List (String × α) → String → Option α
  | [], _ => none
  | (k', v) :: rest, k => if k' = k then some v else mapLookup rest k

def mapSet {α : Type} : List (String × α) → String → α → List (String × α)
  | [], k, v => [(k, v)]
  | (k', v') :: rest, k, v =>
    if k' = k then (k, v) :: rest else (k', v') :: mapSet rest k v

def mapDelete {α : Type} : List (String × α) → String → List (String × α)
  | [], _ => []
  | (k', v') :: rest, k => if k' = k then rest else (k', v') :: mapDelete rest k

/-- `Session` record of the daemon-side `TerminalHost`. -/
structure HostSession where
  id : String
  workspaceId : String
  pid : Nat
  attachedSockets : List Nat
  cols : Nat
  rows : Nat
  snapshot : String
  codexPromptBuffer : String
  codexAwaitingAnswer : Bool
deriving DecidableEq, Repr

abbrev SessionsMap := List (String × HostSession)

/-- `Set.add` over the socket-id list (no duplicates introduced). -/
def setAdd (s : List Nat) (x : Nat) : List Nat := if x ∈ s then s else s ++ [x]

/-- `Set.delete` over the socket-id list. -/
def setDelete (s : List Nat) (x : Nat) : List Nat := s.filter (fun y => y ≠ x)

structure HelloPayload where
  token : String
  protocolVersion : Int
  clientId : String
  role : String
deriving DecidableEq, Repr

structure CreateOrAttachPayload where
  sessionId : String
  workspaceId : String
  cwd : String
  cols : Nat
  rows : Nat
  shell : Option String
  env : List (String × String)
  useLoginShell : Option Bool
deriving DecidableEq, Repr

structure WritePayload where
  sessionId : String
  data : String
deriving DecidableEq, Repr

structure ResizePayload where
  sessionId : String
  cols : Nat
  rows : Nat
deriving DecidableEq, Repr

structure SessionIdPayload where
  sessionId : String
deriving DecidableEq, Repr

structure ShutdownPayload where
  killSessions : Option Bool
deriving DecidableEq, Repr

/-- A parsed protocol frame dispatched by `handleRequest` (the `switch` on
`req.type`); `unknown` carries any other `type` string. -/
inductive HostRequest
  | hello (id : String) (p : HelloPayload)
  | createOrAttach (id : String) (p : CreateOrAttachPayload)
  | write (id : String) (p : WritePayload)
  | resize (id : String) (p : ResizePayload)
  | detach (id : String) (p : SessionIdPayload)
  | kill (id : String) (p : SessionIdPayload)
  | listSessions (id : String)
  | shutdown (id : String) (p : ShutdownPayload)
  | unknown (id : String) (rtype : String)
deriving DecidableEq, Repr

/-- The `id` field carried by every frame. -/
def HostRequest.reqId : HostRequest → String
  | .hello i _ => i
  | .createOrAttach i _ => i
  | .write i _ => i
  | .resize i _ => i
  | .detach i _ => i
  | .kill i _ => i
  | .listSessions i => i
  | .shutdown i _ => i
  | .unknown i _ => i

/-- The request types named by a `case` of the `switch` other than `hello`
(an unrecognized type string falls through to the `default` branch). -/
def HostRequest.isKnownNonHello : HostRequest → Bool
  | .createOrAttach _ _ => true
  | .write _ _ => true
  | .resize _ _ => true
  | .detach _ _ => true
  | .kill _ _ => true
  | .listSessions _ => true
  | .shutdown _ _ => true
  | .hello _ _ => false
  | .unknown _ _ => false

structure SessionInfo where
  sessionId : String
  workspaceId : String
  cols : Nat
  rows : Nat
  pid : Nat
  attachedClients : Nat
deriving DecidableEq, Repr

inductive RespPayload
  | helloOk (protocolVersion : Int) (daemonPid : Nat)
  | createOrAttachOk (isNew : Bool) (snapshotAnsi : String) (cols : Nat) (rows : Nat)
      (pid : Nat)
  | success
  | sessionsList (sessions : List SessionInfo)
deriving DecidableEq, Repr

/-- `sendOk` / `sendError` frames. -/
inductive HostResponse
  | ok (id : String) (payload : RespPayload)
  | err (id : String) (code : String) (message : String)
deriving DecidableEq, Repr

def HostResponse.errCode : HostResponse → Option String
  | .ok _ _ => none
  | .err _ code _ => some code

/-- Side effects of the daemon on PTYs, sockets and marker files. -/
inductive HostEffect
  | spawnPty (sessionId : String) (pid : Nat)
  | resizePty (sessionId : String) (cols : Nat) (rows : Nat)
  | writePty (sessionId : String) (data : String)
  | killPty (sessionId : String)
  | sendSnapshot (socket : Nat) (sessionId : String) (snapshotAnsi : String)
  | destroySocket (socket : Nat)
  | markCodexActive (workspaceId : String) (pid : Nat)
  | clearCodexActivity (workspaceId : String) (pid : Nat)
  | scheduleShutdown (killSessions : Bool)
deriving DecidableEq, Repr

namespace TerminalHost

/-- `TerminalHost.createOrAttach(socket, request)`: resume an existing session
(update geometry, add the stream socket to the attached set, resize the PTY,
send the buffered snapshot when non-empty, return `isNew = false` with the
existing snapshot and pid) or spawn a new PTY (`isNew = true`).  `newPid`
models the pid returned by `pty.spawn`. -/
def createOrAttach (sessions : SessionsMap) (sock : Nat) (p : CreateOrAttachPayload)
    (newPid : Nat) : RespPayload × SessionsMap × List HostEffect :=
  match mapLookup sessions p.sessionId with
  | some existing =>
    (.createOrAttachOk false existing.snapshot p.cols p.rows existing.pid,
     mapSet sessions p.sessionId
       { existing with
         cols := p.cols,
         rows := p.rows,
         attachedSockets := setAdd existing.attachedSockets sock },
     [HostEffect.resizePty p.sessionId p.cols p.rows]
       ++ (if existing.snapshot = "" then []
           else [HostEffect.sendSnapshot sock p.sessionId existing.snapshot]))
  | none =>
    (.createOrAttachOk true "" p.cols p.rows newPid,
     mapSet sessions p.sessionId
       { id := p.sessionId, workspaceId := p.workspaceId, pid := newPid,
         attachedSockets := [sock], cols := p.cols, rows := p.rows,
         snapshot := "", codexPromptBuffer := "", codexAwaitingAnswer := false },
     [HostEffect.spawnPty p.sessionId newPid])

/-- `TerminalHost.write(request)`: throws `Session not found: <id>` for an
unknown session; on `[\r\n]` input resets the codex prompt state and marks
the workspace active before writing to the PTY. -/
def write (sessions : SessionsMap) (p : WritePayload) :
    Except String (SessionsMap × List HostEffect) :=
  match mapLookup sessions p.sessionId with
  | none => .error ("Session not found: " ++ p.sessionId)
  | some session =>
    if p.data.any (fun c => c == '\r' || c == '\n') then
      .ok (mapSet sessions p.sessionId
            { session with codexPromptBuffer := "", codexAwaitingAnswer := false },
           [HostEffect.markCodexActive session.workspaceId session.pid,
            HostEffect.writePty p.sessionId p.data])
    else
      .ok (sessions, [HostEffect.writePty p.sessionId p.data])

/-- `TerminalHost.resize(request)`: silently ignores unknown sessions. -/
def resize (sessions : SessionsMap) (p : ResizePayload) : SessionsMap × List HostEffect :=
  match mapLookup sessions p.sessionId with
  | none => (sessions, [])
  | some session =>
    (mapSet sessions p.sessionId { session with cols := p.cols, rows := p.rows },
     [HostEffect.resizePty p.sessionId p.cols p.rows])

/-- `TerminalHost.detach(socket, request)`: removes the socket from the
session's attached set; unknown sessions are ignored. -/
def detach (sessions : SessionsMap) (sock : Nat) (p : SessionIdPayload) : SessionsMap :=
  match mapLookup sessions p.sessionId with
  | none => sessions
  | some session =>
    mapSet sessions p.sessionId
      { session with attachedSockets := setDelete session.attachedSockets sock }

/-- `TerminalHost.kill(request)`: clears the activity marker, kills the PTY
and removes the session; unknown sessions are ignored. -/
def kill (sessions : SessionsMap) (p : SessionIdPayload) : SessionsMap × List HostEffect :=
  match mapLookup sessions p.sessionId with
  | none => (sessions, [])
  | some session =>
    (mapDelete sessions p.sessionId,
     [HostEffect.clearCodexActivity session.workspaceId session.pid,
      HostEffect.killPty p.sessionId])

/-- `TerminalHost.listSessions()`. -/
def listSessions (sessions : SessionsMap) : RespPayload :=
  .sessionsList (sessions.map (fun kv =>
    { sessionId := kv.2.id, workspaceId := kv.2.workspaceId, cols := kv.2.cols,
      rows := kv.2.rows, pid := kv.2.pid,
      attachedClients := kv.2.attachedSockets.length }))

end TerminalHost

/-- `handleHello(socket, id, payload, state)`: protocol-version gate, token
gate, shape gate, then record authentication and replace (destroying) any
previously registered socket of the same role for this `clientId`. -/
def handleHello (sock : Nat) (id : String) (p : HelloPayload) (st : ClientState)
    (clients : ClientsMap) (authToken : String) (daemonPid : Nat) :
    HostResponse × ClientState × ClientsMap × List HostEffect :=
  if p.protocolVersion ≠ TERMINAL_HOST_PROTOCOL_VERSION then
    (.err id "PROTOCOL_MISMATCH" "Protocol version mismatch", st, clients, [])
  else if p.token ≠ authToken then
    (.err id "AUTH_FAILED" "Invalid auth token", st, clients, [])
  else if p.clientId = "" ∨ (p.role ≠ "control" ∧ p.role ≠ "stream") then
    (.err id "INVALID_HELLO" "Invalid hello payload", st, clients, [])
  else
    let st' : ClientState :=
      { authenticated := true, clientId := some p.clientId,
        role := some (if p.role = "control" then .control else .stream) }
    let current := (mapLookup clients p.clientId).getD { control := none, stream := none }
    if p.role = "control" then
      (.ok id (.helloOk TERMINAL_HOST_PROTOCOL_VERSION daemonPid), st',
       mapSet clients p.clientId { current with control := some sock },
       match current.control with
       | some old => if old ≠ sock then [HostEffect.destroySocket old] else []
       | none => [])
    else
      (.ok id (.helloOk TERMINAL_HOST_PROTOCOL_VERSION daemonPid), st',
       mapSet clients p.clientId { current with stream := some sock },
       match current.stream with
       | some old => if old ≠ sock then [HostEffect.destroySocket old] else []
       | none => [])

/-- `assertAuth(socket, id, state, role = 'control')`: emits the
`NOT_AUTHENTICATED` / `INVALID_ROLE` error frame when the gate fails. -/
def assertAuth (id : String) (st : ClientState) (role : HostRole) : Option HostResponse :=
  if ¬ st.authenticated then
    some (.err id "NOT_AUTHENTICATED" "Must authenticate first")
  else if st.role ≠ some role then
    some (.err id "INVALID_ROLE" ("Request requires " ++ roleName role ++ " role"))
  else none

/-- `getStreamSocketFor(state)`. -/
def getStreamSocketFor (st : ClientState) (clients : ClientsMap) : Option Nat :=
  match st.clientId with
  | none => none
  | some cid =>
    match mapLookup clients cid with
    | none => none
    | some sockets => sockets.stream

/-- Everything `handleRequest` produces: the response frame sent on the
request's socket, the updated connection state, maps, and the effects. -/
structure HandleResult where
  resp : HostResponse
  state : ClientState
  clients : ClientsMap
  sessions : SessionsMap
  effects : List HostEffect
deriving DecidableEq, Repr

/-- `handleRequest(socket, req, state)`: the `switch` on `req.type` with the
`assertAuth` gate, stream-socket lookups, and the `try/catch` that wraps any
thrown error (only `TerminalHost.write` throws here) as `INTERNAL_ERROR`. -/
def handleRequest (sock : Nat) (req : HostRequest) (st : ClientState)
    (clients : ClientsMap) (sessions : SessionsMap) (authToken : String)
    (daemonPid : Nat) (newPid : Nat) : HandleResult :=
  match req with
  | .hello id p =>
    let r := handleHello sock id p st clients authToken daemonPid
    { resp := r.1, state := r.2.1, clients := r.2.2.1, sessions := sessions,
      effects := r.2.2.2 }
  | .createOrAttach id p =>
    match assertAuth id st .control with
    | some e =>
      { resp := e, state := st, clients := clients, sessions := sessions, effects := [] }
    | none =>
      match getStreamSocketFor st clients with
      | none =>
        { resp := .err id "STREAM_NOT_CONNECTED" "Stream socket not connected",
          state := st, clients := clients, sessions := sessions, effects := [] }
      | some streamSock =>
        let r := TerminalHost.createOrAttach sessions streamSock p newPid
        { resp := .ok id r.1, state := st, clients := clients, sessions := r.2.1,
          effects := r.2.2 }
  | .write id p =>
    match assertAuth id st .control with
    | some e =>
      { resp := e, state := st, clients := clients, sessions := sessions, effects := [] }
    | none =>
      match TerminalHost.write sessions p with
      | .error msg =>
        { resp := .err id "INTERNAL_ERROR" msg, state := st, clients := clients,
          sessions := sessions, effects := [] }
      | .ok r =>
        { resp := .ok id .success, state := st, clients := clients, sessions := r.1,
          effects := r.2 }
  | .resize id p =>
    match assertAuth id st .control with
    | some e =>
      { resp := e, state := st, clients := clients, sessions := sessions, effects := [] }
    | none =>
      { resp := .ok id .success, state := st, clients := clients,
        sessions := (TerminalHost.resize sessions p).1,
        effects := (TerminalHost.resize sessions p).2 }
  | .detach id p =>
    match assertAuth id st .control with
    | some e =>
      { resp := e, state := st, clients := clients, sessions := sessions, effects := [] }
    | none =>
      match getStreamSocketFor st clients with
      | none =>
        { resp := .err id "STREAM_NOT_CONNECTED" "Stream socket not connected",
          state := st, clients := clients, sessions := sessions, effects := [] }
      | some streamSock =>
        { resp := .ok id .success, state := st, clients := clients,
          sessions := TerminalHost.detach sessions streamSock p, effects := [] }
  | .kill id p =>
    match assertAuth id st .control with
    | some e =>
      { resp := e, state := st, clients := clients, sessions := sessions, effects := [] }
    | none =>
      { resp := .ok id .success, state := st, clients := clients,
        sessions := (TerminalHost.kill sessions p).1,
        effects := (TerminalHost.kill sessions p).2 }
  | .listSessions id =>
    match assertAuth id st .control with
    | some e =>
      { resp := e, state := st, clients := clients, sessions := sessions, effects := [] }
    | none =>
      { resp := .ok id (TerminalHost.listSessions sessions), state := st,
        clients := clients, sessions := sessions, effects := [] }
  | .shutdown id p =>
    match assertAuth id st .control with
    | some e =>
      { resp := e, state := st, clients := clients, sessions := sessions, effects := [] }
    | none =>
      { resp := .ok id .success, state := st, clients := clients, sessions := sessions,
        effects := [HostEffect.scheduleShutdown (p.killSessions.getD false)] }
  | .unknown id rtype =>
    { resp := .err id "UNKNOWN_REQUEST" ("Unknown request type: " ++ rtype),
      state := st, clients := clients, sessions := sessions, effects := [] }

/-! ## JS string helpers shared by several components -/

/-- The whitespace characters JS `String.prototype.trim` strips, restricted
to the ASCII range that occurs in terminal byte streams. -/
def isJsWhitespace (c : Char) : Bool :=
  c = ' ' || c = '\t' || c = '\n' || c = '\r' || c = '\x0b' || c = '\x0c'

/-- JS `s.trim()` over the character-list embedding. -/
def jsTrim (l : List Char) : List Char :=
  ((l.dropWhile isJsWhitespace).reverse.dropWhile isJsWhitespace).reverse

/-- JS `s.trim()` over `String`. -/
def jsTrimString (s : String) : String := ⟨jsTrim s.data⟩

/-! ## Wire protocol codec: `NdjsonParser` (daemon and client copies are
identical).  `JSON.parse` is a platform built-in, modelled by an abstract
`decode : List Char → Option F` where `none` stands for a thrown-and-ignored
parse error. -/

/-- Frames contributed by one complete line: skipped when the line is
whitespace-only (`if (line.trim())`), otherwise `JSON.parse(line)` with
malformed lines silently dropped. -/
def ndjsonLineFrames {F : Type} (decode : List Char → Option F) (line : List Char) :
    List F :=
  if jsTrim line = [] then [] else (decode line).toList

/-- Splitting a buffer at every `'\n'`: the resulting segments are the
newline-terminated lines in order, and the final segment is the trailing
text after the last newline (empty when the buffer ends in `'\n'`).  This is
what the `while ((idx = buffer.indexOf('\n')) >= 0)` loop of
`NdjsonParser.parse` walks through: each iteration removes the first
segment. -/
def splitNl : List Char → List (List Char)
  | [] => [[]]
  | c :: rest =>
    if c = '\n' then [] :: splitNl rest
    else
      match splitNl rest with
      | [] => [[c]]
      | l :: ls => (c :: l) :: ls

/-- The drain loop of `NdjsonParser.parse`: emit the frames of every complete
newline-terminated line in order, and keep the trailing partial line as the
new buffer. -/
def ndjsonDrain {F : Type} (decode : List Char → Option F) (buf : List Char) :
    List F × List Char :=
  ((splitNl buf).dropLast.flatMap (ndjsonLineFrames decode),
   ((splitNl buf).getLast?).getD [])

/-- One call of `NdjsonParser.parse(chunk)`: `this.buffer += chunk`, then the
drain loop; returns the emitted frames and the new buffer. -/
def ndjsonParse {F : Type} (decode : List Char → Option F) (buffer chunk : List Char) :
    List F × List Char :=
  ndjsonDrain decode (buffer ++ chunk)

/-- Feeding a chunk sequence through one parser instance from a fresh state,
concatenating all emitted frames. -/
def ndjsonRun {F : Type} (decode : List Char → Option F) (chunks : List (List Char)) :
    List F × List Char :=
  chunks.foldl
    (fun acc c =>
      ((acc.1 ++ (ndjsonParse decode acc.2 c).1), (ndjsonParse decode acc.2 c).2))
    ([], [])

/-! ## Agent turn events (`emitTurnEvent` / `emitAgentTurnEvent`) -/

/-- The normalized turn-event shape written to the file bus (without the
timestamp, which is ambient). -/
structure TurnEventOut where
  workspaceId : String
  agent : String
  etype : String
  sessionId : Option String
  outcome : Option String
deriving DecidableEq, Repr

/-- `PtyManager.emitTurnEvent`: a no-op when the PTY has no workspace
association, otherwise exactly one event. -/
def emitTurnEvent (workspaceId : Option String) (agent : String) (etype : String)
    (sessionId : Option String) (outcome : Option String) : List TurnEventOut :=
  match workspaceId with
  | none => []
  | some ws => [{ workspaceId := ws, agent := agent, etype := etype,
                  sessionId := sessionId, outcome := outcome }]

/-! ## Crush output-shape (silence) detector (`handleCrushTurnSilence`) -/

def CRUSH_SILENCE_MS : Nat := 5000
def CRUSH_REARM_GRACE_MS : Nat := 3000
def CRUSH_REARM_CHECK_INTERVAL_MS : Nat := 3000
def CRUSH_REARM_MIN_DATA_LEN : Nat := 8

/-- The crush-detector fields of a `PtyInstance`.  The pending silence timer
is modelled by an optional timer identifier; arming a timer stores the fresh
identifier supplied to the step function. -/
structure CrushState where
  workspaceId : Option String
  agentSessionId : String
  crushTurnActive : Bool
  crushSilenceTimer : Option Nat
  crushLastTurnEndedAt : Nat
  crushLastRearmCheck : Nat
  crushPrevDataSize : Int
deriving DecidableEq, Repr

/-- `PtyManager.handleCrushTurnSilence(instance, data)` as a state
transition.  Only the data's length matters (`data.length`); `now` models
`Date.now()`, `newTimerId` the timer created by `setTimeout`, and
`crushRunning` the result of the process-tree check
`isCrushRunningUnder(pid)`. -/
def handleCrushTurnSilence (st : CrushState) (dataLen : Nat) (now : Nat)
    (newTimerId : Nat) (crushRunning : Bool) : CrushState × List TurnEventOut :=
  match st.workspaceId with
  | none => (st, [])
  | some _ =>
    if st.crushTurnActive then
      if 0 ≤ st.crushPrevDataSize
          ∧ ((dataLen : Int) - st.crushPrevDataSize).natAbs ≤ 2 then
        ({ st with crushPrevDataSize := (dataLen : Int) }, [])
      else
        ({ st with
            crushPrevDataSize := (dataLen : Int),
            crushSilenceTimer := some newTimerId }, [])
    else
      if 0 ≤ st.crushPrevDataSize
          ∧ ((dataLen : Int) - st.crushPrevDataSize).natAbs ≤ 2 then
        ({ st with crushPrevDataSize := (dataLen : Int) }, [])
      else if dataLen < CRUSH_REARM_MIN_DATA_LEN then
        ({ st with crushPrevDataSize := (dataLen : Int) }, [])
      else if now - st.crushLastTurnEndedAt < CRUSH_REARM_GRACE_MS then
        ({ st with crushPrevDataSize := (dataLen : Int) }, [])
      else if now - st.crushLastRearmCheck < CRUSH_REARM_CHECK_INTERVAL_MS then
        ({ st with crushPrevDataSize := (dataLen : Int) }, [])
      else if ¬ crushRunning then
        ({ st with
            crushPrevDataSize := (dataLen : Int),
            crushLastRearmCheck := now }, [])
      else
        ({ st with
            crushPrevDataSize := (dataLen : Int),
            crushLastRearmCheck := now,
            crushTurnActive := true },
         emitTurnEvent st.workspaceId "crush" "turn_started" (some st.agentSessionId) none)

/-- The `setTimeout(..., CRUSH_SILENCE_MS)` callback armed by
`handleCrushTurnSilence`: fires only while the turn is still active, then
ends the turn and emits one `awaiting_user`/`success` event. -/
def crushSilenceTimerFire (st : CrushState) (now : Nat) : CrushState × List TurnEventOut :=
  if ¬ st.crushTurnActive then (st, [])
  else
    ({ st with
        crushTurnActive := false,
        crushSilenceTimer := none,
        crushPrevDataSize := -1,
        crushLastTurnEndedAt := now },
     emitTurnEvent st.workspaceId "crush" "awaiting_user" (some st.agentSessionId)
       (some "success"))

/-! ## Structured-stream (pi-mono) detector (`handlePiMonoJsonOutput`).
`JSON.parse` results are modelled as association lists of field values;
`jparse` abstracts the JSON parser (`none` = thrown, caught, line skipped). -/

def AGENT_EVENT_LINE_BUFFER_MAX : Nat := 32768

inductive JsVal
  | str (s : String)
  | num (n : Int)
  | other
deriving DecidableEq, Repr

abbrev JsObject := List (String × JsVal)

def jsGet (o : JsObject) (k : String) : Option JsVal := mapLookup o k

/-- `typeof parsed.type === 'string' ? parsed.type : ''`. -/
def jsTypeField (o : JsObject) : String :=
  match jsGet o "type" with
  | some (.str s) => s
  | _ => ""

/-- The session-header shape check:
`type === 'session' && typeof id === 'string' && typeof cwd === 'string' && typeof version === 'number'`;
returns the header's `id` when the shape matches. -/
def piMonoSessionHeaderId (o : JsObject) : Option String :=
  if jsTypeField o = "session" then
    match jsGet o "id", jsGet o "cwd", jsGet o "version" with
    | some (.str idS), some (.str _), some (.num _) => some idS
    | _, _, _ => none
  else none

/-- The pi-mono detector fields of a `PtyInstance`. -/
structure PiMonoState where
  workspaceId : Option String
  agentSessionId : String
  agentEventLineBuffer : List Char
  piMonoJsonDetected : Bool
  piMonoTurnActive : Bool
deriving DecidableEq, Repr

/-- A fresh instance's pi-mono fields (`create`): empty line buffer, nothing
detected, the PTY-assigned session id. -/
def initPiMonoState (workspaceId : Option String) (agentSessionId : String) :
    PiMonoState :=
  { workspaceId := workspaceId, agentSessionId := agentSessionId,
    agentEventLineBuffer := [], piMonoJsonDetected := false, piMonoTurnActive := false }

/-- `buffer.split(/\r?\n/)`: the separator is `\n` optionally preceded by
`\r`; a lone `\r` is not a separator. -/
def splitCrLf : List Char → List (List Char)
  | [] => [[]]
  | '\r' :: '\n' :: rest => [] :: splitCrLf rest
  | '\n' :: rest => [] :: splitCrLf rest
  | c :: rest =>
    match splitCrLf rest with
    | [] => [[c]]
    | l :: ls => (c :: l) :: ls

/-- The buffer maintenance of `handlePiMonoJsonOutput`: append the data,
cap the buffer at its maximum (`slice(-MAX)`), split into lines and pop the
trailing partial line back into the buffer.  Returns (complete lines, new
buffer). -/
def piMonoSplitBuffer (buffer data : List Char) : List (List Char) × List Char :=
  ((splitCrLf
      (if AGENT_EVENT_LINE_BUFFER_MAX < (buffer ++ data).length then
        (buffer ++ data).drop ((buffer ++ data).length - AGENT_EVENT_LINE_BUFFER_MAX)
      else buffer ++ data)).dropLast,
   (splitCrLf
      (if AGENT_EVENT_LINE_BUFFER_MAX < (buffer ++ data).length then
        (buffer ++ data).drop ((buffer ++ data).length - AGENT_EVENT_LINE_BUFFER_MAX)
      else buffer ++ data)).getLastD [])

/-- The body of the `for (const rawLine of lines)` loop of
`handlePiMonoJsonOutput`, for one raw line. -/
def piMonoProcessLine (jparse : List Char → Option JsObject) (st : PiMonoState)
    (rawLine : List Char) : PiMonoState × List TurnEventOut :=
  if jsTrim rawLine = [] ∨ (jsTrim rawLine).head? ≠ some '{' then (st, [])
  else
    match jparse (jsTrim rawLine) with
    | none => (st, [])
    | some parsed =>
      if jsTypeField parsed = "" then (st, [])
      else if ¬ st.piMonoJsonDetected then
        match piMonoSessionHeaderId parsed with
        | none => (st, [])
        | some idS =>
          ({ st with
              piMonoJsonDetected := true,
              agentSessionId :=
                if jsTrimString idS = "" then st.agentSessionId else jsTrimString idS },
           [])
      else if jsTypeField parsed = "turn_start" then
        ({ st with piMonoTurnActive := true },
         emitTurnEvent st.workspaceId "pi-mono" "turn_started" (some st.agentSessionId)
           none)
      else if jsTypeField parsed = "turn_end" then
        ({ st with piMonoTurnActive := false },
         emitTurnEvent st.workspaceId "pi-mono" "awaiting_user" (some st.agentSessionId)
           (some "success"))
      else if jsTypeField parsed = "agent_end" ∧ st.piMonoTurnActive then
        ({ st with piMonoTurnActive := false },
         emitTurnEvent st.workspaceId "pi-mono" "awaiting_user" (some st.agentSessionId)
           (some "success"))
      else (st, [])

/-- Folding the loop body over the complete lines of one data chunk. -/
def piMonoProcessLines (jparse : List Char → Option JsObject) (st : PiMonoState) :
    List (List Char) → PiMonoState × List TurnEventOut
  | [] => (st, [])
  | l :: ls =>
    ((piMonoProcessLines jparse (piMonoProcessLine jparse st l).1 ls).1,
     (piMonoProcessLine jparse st l).2
       ++ (piMonoProcessLines jparse (piMonoProcessLine jparse st l).1 ls).2)

/-- `PtyManager.handlePiMonoJsonOutput(instance, data)`: guard on workspace
and non-empty data, maintain the rolling line buffer, then run the line
loop. -/
def handlePiMonoJsonOutput (jparse : List Char → Option JsObject) (st : PiMonoState)
    (data : List Char) : PiMonoState × List TurnEventOut :=
  match st.workspaceId with
  | none => (st, [])
  | some _ =>
    if data = [] then (st, [])
    else
      ((piMonoProcessLines jparse
          { st with
              agentEventLineBuffer := (piMonoSplitBuffer st.agentEventLineBuffer data).2 }
          (piMonoSplitBuffer st.agentEventLineBuffer data).1).1,
       (piMonoProcessLines jparse
          { st with
              agentEventLineBuffer := (piMonoSplitBuffer st.agentEventLineBuffer data).2 }
          (piMonoSplitBuffer st.agentEventLineBuffer data).1).2)

/-- The complete lines one `handlePiMonoJsonOutput` call walks through (empty
when the guards bail out). -/
def piMonoStepLines (st : PiMonoState) (d : List Char) : List (List Char) :=
  match st.workspaceId with
  | none => []
  | some _ =>
    if d = [] then [] else (piMonoSplitBuffer st.agentEventLineBuffer d).1

/-- Feeding a sequence of output chunks through the detector, collecting the
final state, the emitted events, and every complete line processed. -/
def piMonoRun (jparse : List Char → Option JsObject) (st : PiMonoState) :
    List (List Char) → PiMonoState × List TurnEventOut × List (List Char)
  | [] => (st, [], [])
  | d :: ds =>
    ((piMonoRun jparse (handlePiMonoJsonOutput jparse st d).1 ds).1,
     (handlePiMonoJsonOutput jparse st d).2
       ++ (piMonoRun jparse (handlePiMonoJsonOutput jparse st d).1 ds).2.1,
     piMonoStepLines st d
       ++ (piMonoRun jparse (handlePiMonoJsonOutput jparse st d).1 ds).2.2)

/-- The boolean shape check `piMonoProcessLine` applies before a line can be
accepted as the session header. -/
def isSessionHeaderLine (jparse : List Char → Option JsObject) (rawLine : List Char) :
    Bool :=
  if jsTrim rawLine = [] ∨ (jsTrim rawLine).head? ≠ some '{' then false
  else
    match jparse (jsTrim rawLine) with
    | none => false
    | some parsed => (piMonoSessionHeaderId parsed).isSome

/-- Concrete stream fixture: the session-header line (with an empty `id`
string) and turn-start line of a pi-mono stream, and the objects `JSON.parse`
produces on exactly those lines. -/
def piMonoCexHeaderLine : List Char :=
  "\x7b\"type\":\"session\",\"id\":\"\",\"cwd\":\"/x\",\"version\":1\x7d".data

def piMonoCexTurnStartLine : List Char := "\x7b\"type\":\"turn_start\"\x7d".data

def piMonoCexJparse : List Char → Option JsObject := fun l =>
  if l = piMonoCexHeaderLine then
    some [("type", .str "session"), ("id", .str ""), ("cwd", .str "/x"),
          ("version", .num 1)]
  else if l = piMonoCexTurnStartLine then
    some [("type", .str "turn_start")]
  else none

/-! ## Notification watcher (`NotificationWatcher.pollNotifications` /
`processFile`).  A directory is a list of files in `readdirSync` order; a
file's content is `none` when `readFileSync` would throw. -/

structure NotifyFile where
  name : String
  content : Option String
deriving DecidableEq, Repr

/-- `processFile(filePath)`: read, trim, ignore empty content (returning
*without deleting*), otherwise notify the renderer with the workspace id and
delete the file.  Returns (deleted?, notification?). -/
def processNotifyFile (f : NotifyFile) : Bool × Option String :=
  match f.content with
  | none => (false, none)
  | some c =>
    if jsTrimString c = "" then (false, none)
    else (true, some (jsTrimString c))

/-- `pollNotifications()`: process every directory entry (no filtering),
returning the files remaining afterwards and the notifications sent. -/
def pollNotifications : List NotifyFile → List NotifyFile × List String
  | [] => ([], [])
  | f :: rest =>
    ((if (processNotifyFile f).1 then (pollNotifications rest).1
      else f :: (pollNotifications rest).1),
     (processNotifyFile f).2.toList ++ (pollNotifications rest).2)

/-- The replay-window invariant tying a buffer state to the full output
`total` emitted so far: the retained character count is exactly the length
of the retained concatenation, no retained chunk is empty, the count is
capped, `outputSeq` counts all output, the concatenation is exactly the
final `replayChars` characters of `total` (the range `[E-B, E)`), and a
non-empty output history retains at least one character. -/
structure ReplayInv (st : PtyBufferState) (total : List Char) : Prop where
  chars_eq : st.replayChars = (bufferConcat st).length
  no_empty : ∀ c ∈ st.replayChunks, c ≠ []
  chars_le_cap : st.replayChars ≤ PTY_REPLAY_BUFFER_MAX_CHARS
  seq_eq : st.outputSeq = total.length
  concat_eq : bufferConcat st = total.drop (total.length - st.replayChars)
  pos : st.outputSeq ≠ 0 → st.replayChars ≠ 0

/-! ## Theorems -/

/-! Sanity checks on small inputs (cap never reached, so buffer = all output). -/

example :
    runPtyOutput [['a', 'b'], ['c']] =
      { outputSeq := 3, replayChunks := [['a', 'b'], ['c']], replayChars := 3,
        cols := 80, rows := 24 } := by
  decide

example :
    (ptyReattach (runPtyOutput [['a', 'b'], ['c']]) (some 1)).replay =
      some ['b', 'c'] := by
  decide

example :
    (ptyReattach (runPtyOutput [['a', 'b'], ['c']]) (some 1)).truncated = false := by
  decide

lemma flatten_ne_nil_of_no_empty {ls : List (List Char)} (hne : ∀ c ∈ ls, c ≠ [])
    (h : ls ≠ []) : ls.flatten ≠ [] := by
  cases ls with
  | nil => exact absurd rfl h
  | cons a t =>
    simp only [List.flatten_cons, ne_eq, List.append_eq_nil, not_and]
    intro ha
    exact absurd ha (hne a (by simp))

lemma chunks_eq_nil_of_flatten_nil {ls : List (List Char)} (hne : ∀ c ∈ ls, c ≠ [])
    (h : ls.flatten = []) : ls = [] := by
  by_contra hcon
  exact flatten_ne_nil_of_no_empty hne hcon h

/-- Specification of the eviction loop: it preserves the "count = length of
concatenation" and "no empty chunk" facts, lands at or below the cap, only
shrinks the count, and leaves exactly the final `r.2` characters of the
original concatenation. -/
lemma evictReplayChunks_spec :
    ∀ (chunks : List (List Char)) (chars : Nat),
      chars = chunks.flatten.length → (∀ c ∈ chunks, c ≠ []) →
      (evictReplayChunks chunks chars).2 = (evictReplayChunks chunks chars).1.flatten.length
      ∧ (∀ c ∈ (evictReplayChunks chunks chars).1, c ≠ [])
      ∧ (evictReplayChunks chunks chars).2 ≤ PTY_REPLAY_BUFFER_MAX_CHARS
      ∧ (evictReplayChunks chunks chars).2 ≤ chars
      ∧ (evictReplayChunks chunks chars).1.flatten
          = chunks.flatten.drop (chunks.flatten.length - (evictReplayChunks chunks chars).2)
  | [], chars, hc, _ => by
    simp only [List.flatten_nil, List.length_nil] at hc
    subst hc
    simp [evictReplayChunks]
  | c :: rest, chars, hc, hne => by
    have hcne : c ≠ [] := hne c (by simp)
    rw [evictReplayChunks]
    by_cases hcap : chars ≤ PTY_REPLAY_BUFFER_MAX_CHARS
    · rw [if_pos hcap]
      refine ⟨hc, hne, hcap, le_refl _, ?_⟩
      rw [← hc, Nat.sub_self, List.drop_zero]
    · rw [if_neg hcap, if_neg hcne]
      have hflat : (c :: rest).flatten.length = c.length + rest.flatten.length := by
        simp [List.flatten_cons]
      have hc' : chars - c.length = rest.flatten.length := by omega
      have hne' : ∀ x ∈ rest, x ≠ [] := fun x hx => hne x (by simp [hx])
      obtain ⟨h1, h2, h3, h4, h5⟩ := evictReplayChunks_spec rest (chars - c.length) hc' hne'
      refine ⟨h1, h2, h3, by omega, ?_⟩
      rw [h5]
      show List.drop (rest.flatten.length - (evictReplayChunks rest (chars - c.length)).2)
          rest.flatten
        = List.drop ((c ++ rest.flatten).length - (evictReplayChunks rest (chars - c.length)).2)
          (c ++ rest.flatten)
      have hr2 : (evictReplayChunks rest (chars - c.length)).2 ≤ rest.flatten.length := by
        omega
      have hidx : (c ++ rest.flatten).length - (evictReplayChunks rest (chars - c.length)).2
          = c.length + (rest.flatten.length - (evictReplayChunks rest (chars - c.length)).2) := by
        rw [List.length_append]
        omega
      rw [hidx, List.drop_append]

/-- The eviction loop never empties the buffer when the most recently pushed
chunk fits within the cap on its own. -/
lemma evictReplayChunks_ne_nil :
    ∀ (chunks : List (List Char)) (chars : Nat) (L : List Char),
      chars = chunks.flatten.length → (∀ c ∈ chunks, c ≠ []) →
      chunks.getLast? = some L → L.length ≤ PTY_REPLAY_BUFFER_MAX_CHARS →
      (evictReplayChunks chunks chars).1 ≠ []
  | [], _, _, _, _, hlast, _ => by simp at hlast
  | c :: rest, chars, L, hc, hne, hlast, hL => by
    rw [evictReplayChunks]
    by_cases hcap : chars ≤ PTY_REPLAY_BUFFER_MAX_CHARS
    · rw [if_pos hcap]; simp
    · have hcne : c ≠ [] := hne c (by simp)
      rw [if_neg hcap, if_neg hcne]
      cases rest with
      | nil =>
        exfalso
        simp only [List.getLast?_singleton, Option.some.injEq] at hlast
        subst hlast
        simp only [List.flatten_cons, List.flatten_nil, List.append_nil] at hc
        omega
      | cons r rs =>
        have hlast' : (r :: rs).getLast? = some L := by
          rwa [List.getLast?_cons_cons] at hlast
        have hc' : chars - c.length = (r :: rs).flatten.length := by
          simp only [List.flatten_cons, List.length_append] at hc ⊢
          omega
        exact evictReplayChunks_ne_nil (r :: rs) (chars - c.length) L hc'
          (fun x hx => hne x (by simp [hx])) hlast' hL

lemma cap_pos : 0 < PTY_REPLAY_BUFFER_MAX_CHARS := by decide

/-- One `onData` step preserves the replay-window invariant. -/
lemma replayInv_onData {st : PtyBufferState} {total : List Char}
    (h : ReplayInv st total) (d : List Char) :
    ReplayInv (ptyOnData st d) (total ++ d) := by
  obtain ⟨hce, hno, hcap, hseq, hcat, hpos⟩ := h
  rw [ptyOnData, appendReplayChunk]
  by_cases hd : d = []
  · subst hd
    rw [if_pos rfl]
    refine ⟨hce, hno, hcap, ?_, ?_, ?_⟩
    · simp only [List.append_nil, List.length_nil, Nat.add_zero]
      exact hseq
    · simp only [List.append_nil]
      exact hcat
    · simp only [List.length_nil, Nat.add_zero]
      exact hpos
  · rw [if_neg hd]
    by_cases hbig : PTY_REPLAY_BUFFER_MAX_CHARS ≤ d.length
    · rw [if_pos hbig]
      have htail : (d.drop (d.length - PTY_REPLAY_BUFFER_MAX_CHARS)).length
          = PTY_REPLAY_BUFFER_MAX_CHARS := by
        rw [List.length_drop]; omega
      refine ⟨?_, ?_, ?_, ?_, ?_, ?_⟩
      · simp only [bufferConcat, List.flatten_cons, List.flatten_nil, List.append_nil]
      · intro c hx
        rw [List.mem_singleton] at hx
        intro hnil
        rw [hx] at hnil
        rw [hnil, List.length_nil] at htail
        exact (Nat.pos_iff_ne_zero.mp cap_pos) htail.symm
      · simp only []
        rw [htail]
      · simp only [List.length_append]
        rw [hseq]
      · simp only [bufferConcat, List.flatten_cons, List.flatten_nil, List.append_nil,
          List.length_append, htail]
        have hidx : total.length + d.length - PTY_REPLAY_BUFFER_MAX_CHARS
            = total.length + (d.length - PTY_REPLAY_BUFFER_MAX_CHARS) := by omega
        rw [hidx, List.drop_append]
      · intro _
        simp only []
        rw [htail]
        exact Nat.pos_iff_ne_zero.mp cap_pos
    · rw [if_neg hbig]
      have hflatP : (st.replayChunks ++ [d]).flatten = bufferConcat st ++ d := by
        simp [bufferConcat]
      have hpushed : st.replayChars + d.length
          = (st.replayChunks ++ [d]).flatten.length := by
        rw [hflatP, List.length_append, ← hce]
      have hnoP : ∀ c ∈ st.replayChunks ++ [d], c ≠ [] := by
        intro c hx
        rcases List.mem_append.mp hx with hx | hx
        · exact hno c hx
        · rw [List.mem_singleton] at hx; subst hx; exact hd
      obtain ⟨h1, h2, h3, h4, h5⟩ :=
        evictReplayChunks_spec (st.replayChunks ++ [d]) (st.replayChars + d.length)
          hpushed hnoP
      have hnn : (evictReplayChunks (st.replayChunks ++ [d]) (st.replayChars + d.length)).1
          ≠ [] :=
        evictReplayChunks_ne_nil (st.replayChunks ++ [d]) (st.replayChars + d.length) d
          hpushed hnoP (List.getLast?_concat ..) (le_of_lt (lt_of_not_le hbig))
      have hBle : st.replayChars ≤ total.length := by
        have hlen := congrArg List.length hcat
        rw [← hce, List.length_drop] at hlen
        omega
      refine ⟨?_, ?_, ?_, ?_, ?_, ?_⟩
      · simp only [bufferConcat]
        exact h1
      · simp only []
        exact h2
      · simp only []
        exact h3
      · simp only [List.length_append]
        rw [hseq]
      · simp only [bufferConcat, List.length_append]
        rw [h5, ← hpushed, hflatP, hcat]
        have hidx : total.length + d.length
            - (evictReplayChunks (st.replayChunks ++ [d]) (st.replayChars + d.length)).2
            = (total.length - st.replayChars)
              + (st.replayChars + d.length
                - (evictReplayChunks (st.replayChunks ++ [d]) (st.replayChars + d.length)).2) := by
          omega
        have hle : total.length - st.replayChars ≤ total.length := Nat.sub_le ..
        rw [hidx, ← List.drop_drop, List.drop_append_of_le_length hle]
      · intro _
        simp only []
        rw [h1]
        intro hzero
        exact flatten_ne_nil_of_no_empty h2 hnn (List.length_eq_zero.mp hzero)

lemma replayInv_foldl :
    ∀ (cs : List (List Char)) (st : PtyBufferState) (total : List Char),
      ReplayInv st total → ReplayInv (cs.foldl ptyOnData st) (total ++ cs.flatten)
  | [], st, total, h => by simpa using h
  | d :: cs, st, total, h => by
    have h' := replayInv_onData h d
    have := replayInv_foldl cs (ptyOnData st d) (total ++ d) h'
    simpa [List.append_assoc] using this

lemma replayInv_init : ReplayInv initPtyBuffer [] := by
  refine ⟨rfl, by simp [initPtyBuffer], by simp [initPtyBuffer, PTY_REPLAY_BUFFER_MAX_CHARS],
    rfl, rfl, by simp [initPtyBuffer]⟩

lemma replayInv_runPtyOutput (cs : List (List Char)) :
    ReplayInv (runPtyOutput cs) cs.flatten := by
  have := replayInv_foldl cs initPtyBuffer [] replayInv_init
  simpa [runPtyOutput] using this

lemma ReplayInv.chars_le_seq {st : PtyBufferState} {total : List Char}
    (h : ReplayInv st total) : st.replayChars ≤ st.outputSeq := by
  have := congrArg List.length h.concat_eq
  rw [← h.chars_eq, List.length_drop] at this
  rw [h.seq_eq]
  omega

lemma replayChunks_ne_nil_of_chars_ne_zero {st : PtyBufferState} {total : List Char}
    (h : ReplayInv st total) (hB : st.replayChars ≠ 0) : st.replayChunks ≠ [] := by
  intro hnil
  apply hB
  rw [h.chars_eq]
  simp [bufferConcat, hnil]

lemma replayChunks_eq_nil_of_chars_zero {st : PtyBufferState} {total : List Char}
    (h : ReplayInv st total) (hB : st.replayChars = 0) : st.replayChunks = [] := by
  apply chunks_eq_nil_of_flatten_nil h.no_empty
  have hc := h.chars_eq
  rw [hB] at hc
  exact List.length_eq_zero.mp hc.symm

/--
**C2.** For every PTY session and after every append of an output chunk, the
in-process PTY manager's state satisfies the replay-window invariant:
`replayChars` is at most the 8,000,000-character cap, `outputSeq - replayChars ≥ 0`
(stated as `replayChars ≤ outputSeq`, which is the Nat content of that
inequality), `outputSeq` counts exactly the characters ever emitted, and the
concatenation of `replayChunks` equals exactly the last `replayChars`
characters of all output ever emitted (the range `[E-B, E)`); in particular a
single chunk whose length alone reaches the cap leaves the buffer holding
exactly that chunk's cap-sized tail.
-/
theorem c2_replay_window_invariant :
    (∀ cs : List (List Char),
      (runPtyOutput cs).replayChars ≤ PTY_REPLAY_BUFFER_MAX_CHARS
      ∧ (runPtyOutput cs).replayChars ≤ (runPtyOutput cs).outputSeq
      ∧ (runPtyOutput cs).outputSeq = cs.flatten.length
      ∧ bufferConcat (runPtyOutput cs)
          = cs.flatten.drop ((runPtyOutput cs).outputSeq - (runPtyOutput cs).replayChars))
    ∧ (∀ (cs : List (List Char)) (d : List Char),
        PTY_REPLAY_BUFFER_MAX_CHARS ≤ d.length →
        (runPtyOutput (cs ++ [d])).replayChunks
          = [d.drop (d.length - PTY_REPLAY_BUFFER_MAX_CHARS)]) := by
  constructor
  · intro cs
    have h := replayInv_runPtyOutput cs
    refine ⟨h.chars_le_cap, h.chars_le_seq, h.seq_eq, ?_⟩
    rw [h.concat_eq, h.seq_eq]
  · intro cs d hbig
    have hrun : runPtyOutput (cs ++ [d]) = ptyOnData (runPtyOutput cs) d := by
      rw [runPtyOutput, runPtyOutput, List.foldl_append, List.foldl_cons, List.foldl_nil]
    have hd : d ≠ [] := by
      intro h0
      rw [h0, List.length_nil] at hbig
      have := cap_pos
      omega
    rw [hrun, ptyOnData, appendReplayChunk, if_neg hd, if_pos hbig]

/-- Witness for C2 at a concrete cap-sized chunk. -/
theorem c2_replay_window_invariant_witness :
    (runPtyOutput [List.replicate 8000000 'a']).replayChunks
      = [(List.replicate 8000000 'a').drop
          ((List.replicate 8000000 'a').length - PTY_REPLAY_BUFFER_MAX_CHARS)] :=
  c2_replay_window_invariant.2 [] (List.replicate 8000000 'a')
    (by rw [List.length_replicate]; exact Nat.le_refl _)

lemma run_two_big (A B : List Char) (hA : A.length = 6000000) (hB : B.length = 6000000) :
    runPtyOutput [A, B]
      = { outputSeq := 12000000, replayChunks := [B], replayChars := 6000000,
          cols := 80, rows := 24 } := by
  have hAne : A ≠ [] := by
    intro h0; rw [h0, List.length_nil] at hA; omega
  have hBne : B ≠ [] := by
    intro h0; rw [h0, List.length_nil] at hB; omega
  have h1 : ptyOnData initPtyBuffer A
      = { outputSeq := 6000000, replayChunks := [A], replayChars := 6000000,
          cols := 80, rows := 24 } := by
    rw [ptyOnData, appendReplayChunk, if_neg hAne,
      if_neg (show ¬ PTY_REPLAY_BUFFER_MAX_CHARS ≤ A.length by
        rw [hA]; decide)]
    simp only [initPtyBuffer, List.nil_append, Nat.zero_add, hA]
    rw [evictReplayChunks, if_pos (by decide : (6000000:Nat) ≤ PTY_REPLAY_BUFFER_MAX_CHARS)]
  have h2 : ptyOnData
      { outputSeq := 6000000, replayChunks := [A], replayChars := 6000000,
        cols := 80, rows := 24 } B
      = { outputSeq := 12000000, replayChunks := [B], replayChars := 6000000,
          cols := 80, rows := 24 } := by
    rw [ptyOnData, appendReplayChunk, if_neg hBne,
      if_neg (show ¬ PTY_REPLAY_BUFFER_MAX_CHARS ≤ B.length by
        rw [hB]; decide)]
    simp only [hB, List.cons_append, List.nil_append, Nat.reduceAdd]
    rw [evictReplayChunks,
      if_neg (by decide : ¬ (12000000:Nat) ≤ PTY_REPLAY_BUFFER_MAX_CHARS),
      if_neg hAne, hA]
    simp only [Nat.reduceSub]
    rw [evictReplayChunks, if_pos (by decide : (6000000:Nat) ≤ PTY_REPLAY_BUFFER_MAX_CHARS)]
  rw [runPtyOutput, List.foldl_cons, List.foldl_cons, List.foldl_nil, h1, h2]

/--
**C1 counterexample.** Two 6,000,000-character chunks total N = 12,000,000
characters against the cap C = 8,000,000.  The claim predicts that a reattach
requesting `sinceSeq = max(0, N - C) = 4,000,000` returns the last
`min(N, C) = 8,000,000` characters with `truncated = false`.  The code
evicts whole chunks only, so it retains just 6,000,000 characters, reports
`truncated = true` for that request, and returns only the retained tail.
-/
theorem c1_replay_counterexample :
    (ptyReattach (runPtyOutput [List.replicate 6000000 'a', List.replicate 6000000 'b'])
        (some (12000000 - 8000000))).truncated = true
    ∧ ((ptyReattach (runPtyOutput [List.replicate 6000000 'a', List.replicate 6000000 'b'])
        (some (12000000 - 8000000))).replay).map List.length = some 6000000 := by
  have key : ∀ B : List Char, B.length = 6000000 →
      (ptyReattach
        { outputSeq := 12000000, replayChunks := [B], replayChars := 6000000,
          cols := 80, rows := 24 } (some (12000000 - 8000000))).truncated = true
      ∧ ((ptyReattach
        { outputSeq := 12000000, replayChunks := [B], replayChars := 6000000,
          cols := 80, rows := 24 } (some (12000000 - 8000000))).replay).map List.length
          = some 6000000 := by
    intro B hB
    have hreq : ptyReattachRequested
        { outputSeq := 12000000, replayChunks := [B], replayChars := 6000000,
          cols := 80, rows := 24 } (some (12000000 - 8000000)) = 4000000 := by
      rw [ptyReattachRequested]
      omega
    constructor
    · simp only [ptyReattach, hreq]
      rw [show (12000000:Nat) - 6000000 = 6000000 by omega]
      simp
    · simp only [ptyReattach, hreq, bufferConcat]
      rw [show (12000000:Nat) - 6000000 = 6000000 by omega,
        show (4000000:Nat) - 6000000 = 0 by omega]
      simp [hB]
  have hrun := run_two_big (List.replicate 6000000 'a') (List.replicate 6000000 'b')
    (List.length_replicate ..) (List.length_replicate ..)
  rw [hrun]
  exact key (List.replicate 6000000 'b') (List.length_replicate ..)

/--
**C1 (amended).** For every sequence of output chunks appended to a live PTY
session, let `B` be the retained character count (`replayChars`, which is at
most `min(N, C)` but can be smaller because eviction removes whole chunks)
and `E - B` the buffer base.  A reattach requesting `sinceSeq = E - B`
returns `truncated = false` and exactly the retained `B` characters (absent
when nothing is retained), which are exactly the last `B` characters of all
output; a reattach requesting any smaller `sinceSeq` returns
`truncated = true` together with only the buffer's retained tail.
-/
theorem c1_replay_amended (cs : List (List Char)) :
    ((ptyReattach (runPtyOutput cs)
        (some (((runPtyOutput cs).outputSeq - (runPtyOutput cs).replayChars : Nat) : Int))).truncated
        = false
      ∧ (ptyReattach (runPtyOutput cs)
          (some (((runPtyOutput cs).outputSeq - (runPtyOutput cs).replayChars : Nat) : Int))).replay
        = (if (runPtyOutput cs).replayChars = 0 then none
           else some (bufferConcat (runPtyOutput cs)))
      ∧ bufferConcat (runPtyOutput cs)
        = cs.flatten.drop (cs.flatten.length - (runPtyOutput cs).replayChars))
    ∧ ∀ s : Int,
        (max 0 s).toNat < (runPtyOutput cs).outputSeq - (runPtyOutput cs).replayChars →
        (ptyReattach (runPtyOutput cs) (some s)).truncated = true
        ∧ (ptyReattach (runPtyOutput cs) (some s)).replay
          = some (bufferConcat (runPtyOutput cs)) := by
  have h := replayInv_runPtyOutput cs
  have hBle : (runPtyOutput cs).replayChars ≤ (runPtyOutput cs).outputSeq := h.chars_le_seq
  have hreq1 : ptyReattachRequested (runPtyOutput cs)
      (some (((runPtyOutput cs).outputSeq - (runPtyOutput cs).replayChars : Nat) : Int))
      = (runPtyOutput cs).outputSeq - (runPtyOutput cs).replayChars := by
    rw [ptyReattachRequested]
    omega
  constructor
  · refine ⟨?_, ?_, ?_⟩
    · simp only [ptyReattach, hreq1]
      simp
    · simp only [ptyReattach, hreq1]
      by_cases hB0 : (runPtyOutput cs).replayChars = 0
      · have hchunks := replayChunks_eq_nil_of_chars_zero h hB0
        rw [if_pos (by simp [List.isEmpty_iff, hchunks]), if_pos hB0]
      · have hchunksne := replayChunks_ne_nil_of_chars_ne_zero h hB0
        rw [if_neg (by simp [List.isEmpty_iff, hchunksne]),
          if_pos (by omega :
            (runPtyOutput cs).outputSeq - (runPtyOutput cs).replayChars
              < (runPtyOutput cs).outputSeq),
          Nat.sub_self, List.drop_zero, if_neg hB0]
    · rw [h.concat_eq]
  · intro s hs
    have hreq2 : ptyReattachRequested (runPtyOutput cs) (some s) = (max 0 s).toNat := by
      rw [ptyReattachRequested]
    have hB0 : (runPtyOutput cs).replayChars ≠ 0 := by
      intro h0
      rw [h0, Nat.sub_zero] at hs
      exact h.pos (by omega) h0
    have hchunksne := replayChunks_ne_nil_of_chars_ne_zero h hB0
    constructor
    · simp only [ptyReattach, hreq2]
      exact decide_eq_true hs
    · simp only [ptyReattach, hreq2]
      rw [if_neg (by simp [List.isEmpty_iff, hchunksne]),
        if_pos (by omega : (max 0 s).toNat < (runPtyOutput cs).outputSeq),
        show (max 0 s).toNat
            - ((runPtyOutput cs).outputSeq - (runPtyOutput cs).replayChars) = 0 by omega,
        List.drop_zero]

lemma mapLookup_mapSet_self {α : Type} (m : List (String × α)) (k : String) (v : α) :
    mapLookup (mapSet m k v) k = some v := by
  induction m with
  | nil => simp [mapSet, mapLookup]
  | cons kv rest ih =>
    by_cases h : kv.1 = k
    · simp [mapSet, mapLookup, h]
    · simp [mapSet, mapLookup, h, ih]

lemma setAdd_mem_self (s : List Nat) (x : Nat) : x ∈ setAdd s x := by
  by_cases h : x ∈ s <;> simp [setAdd, h]

/--
**C3 counterexample.** An unauthenticated connection sending a request of an
unrecognized type (here `"bogus"`) is answered `ok:false` with error code
`UNKNOWN_REQUEST`, not `NOT_AUTHENTICATED` as the claim requires for every
request other than hello.
-/
theorem c3_auth_gate_counterexample :
    (handleRequest 0 (.unknown "r1" "bogus") initClientState [] [] "tok" 1 2).resp
      = .err "r1" "UNKNOWN_REQUEST" "Unknown request type: bogus"
    ∧ ("UNKNOWN_REQUEST" : String) ≠ "NOT_AUTHENTICATED" := by
  constructor
  · rfl
  · decide

/--
**C3 (amended).** For every daemon connection that has not completed a
successful hello: every request of a *recognized* type other than hello is
answered `ok:false` with code `NOT_AUTHENTICATED`, and neither the session
registry nor any state changes (no effects are invoked); a request of an
unrecognized type is instead answered `UNKNOWN_REQUEST`.  A hello whose
`protocolVersion` differs from the daemon's constant is answered
`PROTOCOL_MISMATCH`, a hello with a wrong token `AUTH_FAILED`, and in both
cases the connection state and client map are unchanged (in particular the
connection remains unauthenticated).
-/
theorem c3_auth_gate_amended :
    (∀ (sock : Nat) (req : HostRequest) (st : ClientState) (clients : ClientsMap)
        (sessions : SessionsMap) (tok : String) (dpid npid : Nat),
      st.authenticated = false →
      req.isKnownNonHello = true →
      handleRequest sock req st clients sessions tok dpid npid
        = { resp := .err req.reqId "NOT_AUTHENTICATED" "Must authenticate first",
            state := st, clients := clients, sessions := sessions, effects := [] })
    ∧ (∀ (sock : Nat) (id : String) (p : HelloPayload) (st : ClientState)
        (clients : ClientsMap) (tok : String) (dpid : Nat),
        p.protocolVersion ≠ TERMINAL_HOST_PROTOCOL_VERSION →
        handleHello sock id p st clients tok dpid
          = (.err id "PROTOCOL_MISMATCH" "Protocol version mismatch", st, clients, []))
    ∧ (∀ (sock : Nat) (id : String) (p : HelloPayload) (st : ClientState)
        (clients : ClientsMap) (tok : String) (dpid : Nat),
        p.protocolVersion = TERMINAL_HOST_PROTOCOL_VERSION →
        p.token ≠ tok →
        handleHello sock id p st clients tok dpid
          = (.err id "AUTH_FAILED" "Invalid auth token", st, clients, [])) := by
  refine ⟨?_, ?_, ?_⟩
  · intro sock req st clients sessions tok dpid npid hauth hknown
    cases req <;> simp [HostRequest.isKnownNonHello] at hknown <;>
      simp [handleRequest, assertAuth, hauth, HostRequest.reqId]
  · intro sock id p st clients tok dpid hv
    simp [handleHello, hv]
  · intro sock id p st clients tok dpid hv ht
    simp [handleHello, hv, ht]

/-- Witness for C3 (amended) at a concrete unauthenticated write request. -/
theorem c3_auth_gate_amended_witness :
    handleRequest 0 (.write "r1" { sessionId := "s1", data := "ls\n" })
        initClientState [] [] "tok" 1 2
      = { resp := .err "r1" "NOT_AUTHENTICATED" "Must authenticate first",
          state := initClientState, clients := [], sessions := [], effects := [] } :=
  c3_auth_gate_amended.1 0 (.write "r1" { sessionId := "s1", data := "ls\n" })
    initClientState [] [] "tok" 1 2 rfl rfl

/-- Witness for C1 (amended): a concrete evicted buffer where a reattach
below the base is truncated. -/
theorem c1_replay_amended_witness :
    (ptyReattach (runPtyOutput [List.replicate 6000000 'a', List.replicate 6000000 'b'])
      (some 0)).truncated = true := by
  refine ((c1_replay_amended
    [List.replicate 6000000 'a', List.replicate 6000000 'b']).2 0 ?_).1
  rw [run_two_big (List.replicate 6000000 'a') (List.replicate 6000000 'b')
    (List.length_replicate ..) (List.length_replicate ..)]
  simp only []
  omega

/--
**C4.** A `createOrAttach` for a `sessionId` that already exists returns
`isNew = false`, spawns no new PTY process, returns the existing session's
buffered snapshot (`snapshotAnsi`) and pid, adds the caller's stream socket
to the attached set, and issues a PTY resize (in particular whenever the
requested geometry differs); a `createOrAttach` for an unknown `sessionId`
spawns a PTY and returns `isNew = true`.
-/
theorem c4_createOrAttach_spec :
    (∀ (sessions : SessionsMap) (sock : Nat) (p : CreateOrAttachPayload) (npid : Nat)
        (s : HostSession),
      mapLookup sessions p.sessionId = some s →
      (TerminalHost.createOrAttach sessions sock p npid).1
          = .createOrAttachOk false s.snapshot p.cols p.rows s.pid
        ∧ (∀ (sid : String) (q : Nat),
            HostEffect.spawnPty sid q ∉ (TerminalHost.createOrAttach sessions sock p npid).2.2)
        ∧ mapLookup (TerminalHost.createOrAttach sessions sock p npid).2.1 p.sessionId
            = some { s with
                cols := p.cols,
                rows := p.rows,
                attachedSockets := setAdd s.attachedSockets sock }
        ∧ sock ∈ setAdd s.attachedSockets sock
        ∧ ((s.cols ≠ p.cols ∨ s.rows ≠ p.rows) →
            HostEffect.resizePty p.sessionId p.cols p.rows
              ∈ (TerminalHost.createOrAttach sessions sock p npid).2.2))
    ∧ (∀ (sessions : SessionsMap) (sock : Nat) (p : CreateOrAttachPayload) (npid : Nat),
        mapLookup sessions p.sessionId = none →
        (TerminalHost.createOrAttach sessions sock p npid).1
            = .createOrAttachOk true "" p.cols p.rows npid
          ∧ HostEffect.spawnPty p.sessionId npid
              ∈ (TerminalHost.createOrAttach sessions sock p npid).2.2) := by
  constructor
  · intro sessions sock p npid s hlk
    refine ⟨by simp [TerminalHost.createOrAttach, hlk], ?_, ?_, setAdd_mem_self .., ?_⟩
    · intro sid q hmem
      by_cases hsnap : s.snapshot = "" <;>
        simp [TerminalHost.createOrAttach, hlk, hsnap] at hmem
    · simp [TerminalHost.createOrAttach, hlk, mapLookup_mapSet_self]
    · intro _
      by_cases hsnap : s.snapshot = "" <;>
        simp [TerminalHost.createOrAttach, hlk, hsnap]
  · intro sessions sock p npid hlk
    exact ⟨by simp [TerminalHost.createOrAttach, hlk],
      by simp [TerminalHost.createOrAttach, hlk]⟩

/-- Witness for C4 at a concrete registry: resuming an existing session and
spawning an unknown one. -/
theorem c4_createOrAttach_spec_witness :
    (TerminalHost.createOrAttach
        [("s1", { id := "s1", workspaceId := "w1", pid := 42, attachedSockets := [7],
                  cols := 80, rows := 24, snapshot := "hi", codexPromptBuffer := "",
                  codexAwaitingAnswer := false })] 9
        { sessionId := "s1", workspaceId := "w1", cwd := "/tmp", cols := 100, rows := 30,
          shell := none, env := [], useLoginShell := none } 43).1
      = .createOrAttachOk false "hi" 100 30 42
    ∧ HostEffect.resizePty "s1" 100 30
        ∈ (TerminalHost.createOrAttach
            [("s1", { id := "s1", workspaceId := "w1", pid := 42, attachedSockets := [7],
                      cols := 80, rows := 24, snapshot := "hi", codexPromptBuffer := "",
                      codexAwaitingAnswer := false })] 9
            { sessionId := "s1", workspaceId := "w1", cwd := "/tmp", cols := 100, rows := 30,
              shell := none, env := [], useLoginShell := none } 43).2.2
    ∧ (TerminalHost.createOrAttach [] 9
        { sessionId := "s2", workspaceId := "w1", cwd := "/tmp", cols := 100, rows := 30,
          shell := none, env := [], useLoginShell := none } 43).1
      = .createOrAttachOk true "" 100 30 43 := by
  have h1 := c4_createOrAttach_spec.1
    [("s1", { id := "s1", workspaceId := "w1", pid := 42, attachedSockets := [7],
              cols := 80, rows := 24, snapshot := "hi", codexPromptBuffer := "",
              codexAwaitingAnswer := false })] 9
    { sessionId := "s1", workspaceId := "w1", cwd := "/tmp", cols := 100, rows := 30,
      shell := none, env := [], useLoginShell := none } 43
    { id := "s1", workspaceId := "w1", pid := 42, attachedSockets := [7],
      cols := 80, rows := 24, snapshot := "hi", codexPromptBuffer := "",
      codexAwaitingAnswer := false } (by decide)
  have h2 := c4_createOrAttach_spec.2 [] 9
    { sessionId := "s2", workspaceId := "w1", cwd := "/tmp", cols := 100, rows := 30,
      shell := none, env := [], useLoginShell := none } 43 (by decide)
  exact ⟨h1.1, h1.2.2.2.2 (by decide), h2.1⟩

/--
**C9.** For every `clientId` the daemon's client map holds at most one control
socket and at most one stream socket (the map entry has one optional slot per
role); a successful hello naming a `clientId` and role under which a
different socket is already registered destroys that previous socket and
records the new one in its place, leaving the other role's slot unchanged.
-/
theorem c9_hello_socket_replacement :
    ∀ (sock : Nat) (id : String) (p : HelloPayload) (st : ClientState)
      (clients : ClientsMap) (tok : String) (dpid : Nat) (cur : ClientSockets),
      p.protocolVersion = TERMINAL_HOST_PROTOCOL_VERSION →
      p.token = tok →
      p.clientId ≠ "" →
      mapLookup clients p.clientId = some cur →
      ((p.role = "control" →
        mapLookup (handleHello sock id p st clients tok dpid).2.2.1 p.clientId
          = some { control := some sock, stream := cur.stream }
        ∧ (∀ old, cur.control = some old → old ≠ sock →
            (handleHello sock id p st clients tok dpid).2.2.2
              = [HostEffect.destroySocket old]))
      ∧ (p.role = "stream" →
        mapLookup (handleHello sock id p st clients tok dpid).2.2.1 p.clientId
          = some { control := cur.control, stream := some sock }
        ∧ (∀ old, cur.stream = some old → old ≠ sock →
            (handleHello sock id p st clients tok dpid).2.2.2
              = [HostEffect.destroySocket old]))) := by
  intro sock id p st clients tok dpid cur hv ht hcid hlk
  constructor
  · intro hrole
    constructor
    · simp [handleHello, hv, ht, hcid, hrole, hlk, mapLookup_mapSet_self]
    · intro old hold hne
      simp [handleHello, hv, ht, hcid, hrole, hlk, hold, hne]
  · intro hrole
    have hnc : p.role ≠ "control" := by
      rw [hrole]; decide
    constructor
    · simp [handleHello, hv, ht, hcid, hrole, hnc, hlk, mapLookup_mapSet_self]
    · intro old hold hne
      simp [handleHello, hv, ht, hcid, hrole, hnc, hlk, hold, hne]

/-- Witness for C9: a control hello that replaces a previously registered
control socket for the same clientId. -/
theorem c9_hello_socket_replacement_witness :
    mapLookup (handleHello 9 "r1"
        { token := "tok", protocolVersion := 1, clientId := "c1", role := "control" }
        initClientState [("c1", { control := some 5, stream := some 6 })]
        "tok" 1).2.2.1 "c1"
      = some { control := some 9, stream := some 6 }
    ∧ (handleHello 9 "r1"
        { token := "tok", protocolVersion := 1, clientId := "c1", role := "control" }
        initClientState [("c1", { control := some 5, stream := some 6 })]
        "tok" 1).2.2.2
      = [HostEffect.destroySocket 5] := by
  have h := (c9_hello_socket_replacement 9 "r1"
    { token := "tok", protocolVersion := 1, clientId := "c1", role := "control" }
    initClientState [("c1", { control := some 5, stream := some 6 })] "tok" 1
    { control := some 5, stream := some 6 }
    rfl rfl (by decide) (by decide)).1 rfl
  exact ⟨h.1, h.2 5 rfl (by decide)⟩

/--
**C10 counterexample.** An authenticated control connection whose client has
no connected stream socket sends `detach` naming an unknown sessionId: the
daemon answers `ok:false` with `STREAM_NOT_CONNECTED`, not `ok:true` as the
claim states for every detach naming an unknown sessionId.
-/
theorem c10_unknown_session_counterexample :
    (handleRequest 5 (.detach "r1" { sessionId := "ghost" })
        { authenticated := true, clientId := some "c1", role := some .control }
        [("c1", { control := some 5, stream := none })] [] "tok" 1 2).resp
      = .err "r1" "STREAM_NOT_CONNECTED" "Stream socket not connected" := by
  rfl

/--
**C10 (amended).** For every authenticated control connection: a `write`
naming an unknown sessionId is answered `ok:false` with code `INTERNAL_ERROR`
and message `Session not found: <sessionId>`; `resize` and `kill` naming an
unknown sessionId are answered `ok:true` and leave the registry and all
sessions unchanged (no effects); `detach` naming an unknown sessionId is
answered `ok:true` with the registry unchanged provided the client's stream
socket is connected, and `STREAM_NOT_CONNECTED` otherwise.
-/
theorem c10_unknown_session_amended :
    ∀ (sock : Nat) (rid sid : String) (st : ClientState) (clients : ClientsMap)
      (sessions : SessionsMap) (tok : String) (dpid npid : Nat) (data : String)
      (cols rows : Nat),
      st.authenticated = true →
      st.role = some .control →
      mapLookup sessions sid = none →
      (handleRequest sock (.write rid { sessionId := sid, data := data })
          st clients sessions tok dpid npid
        = { resp := .err rid "INTERNAL_ERROR" ("Session not found: " ++ sid),
            state := st, clients := clients, sessions := sessions, effects := [] })
      ∧ (handleRequest sock (.resize rid { sessionId := sid, cols := cols, rows := rows })
          st clients sessions tok dpid npid
        = { resp := .ok rid .success,
            state := st, clients := clients, sessions := sessions, effects := [] })
      ∧ (handleRequest sock (.kill rid { sessionId := sid })
          st clients sessions tok dpid npid
        = { resp := .ok rid .success,
            state := st, clients := clients, sessions := sessions, effects := [] })
      ∧ (∀ strm, getStreamSocketFor st clients = some strm →
          handleRequest sock (.detach rid { sessionId := sid })
            st clients sessions tok dpid npid
          = { resp := .ok rid .success,
              state := st, clients := clients, sessions := sessions, effects := [] })
      ∧ (getStreamSocketFor st clients = none →
          handleRequest sock (.detach rid { sessionId := sid })
            st clients sessions tok dpid npid
          = { resp := .err rid "STREAM_NOT_CONNECTED" "Stream socket not connected",
              state := st, clients := clients, sessions := sessions, effects := [] }) := by
  intro sock rid sid st clients sessions tok dpid npid data cols rows hauth hrole hlk
  refine ⟨?_, ?_, ?_, ?_, ?_⟩
  · simp [handleRequest, assertAuth, hauth, hrole, TerminalHost.write, hlk]
  · simp [handleRequest, assertAuth, hauth, hrole, TerminalHost.resize, hlk]
  · simp [handleRequest, assertAuth, hauth, hrole, TerminalHost.kill, hlk]
  · intro strm hstrm
    simp [handleRequest, assertAuth, hauth, hrole, hstrm, TerminalHost.detach, hlk]
  · intro hstrm
    simp [handleRequest, assertAuth, hauth, hrole, hstrm]

/-- Witness for C10 (amended) at a concrete registry with one live session
and an unknown sessionId. -/
theorem c10_unknown_session_amended_witness :
    (handleRequest 5 (.write "r1" { sessionId := "ghost", data := "x" })
        { authenticated := true, clientId := some "c1", role := some .control }
        [("c1", { control := some 5, stream := some 6 })] [] "tok" 1 2
      = { resp := .err "r1" "INTERNAL_ERROR" "Session not found: ghost",
          state := { authenticated := true, clientId := some "c1", role := some .control },
          clients := [("c1", { control := some 5, stream := some 6 })],
          sessions := [], effects := [] })
    ∧ (handleRequest 5 (.detach "r1" { sessionId := "ghost" })
        { authenticated := true, clientId := some "c1", role := some .control }
        [("c1", { control := some 5, stream := some 6 })] [] "tok" 1 2
      = { resp := .ok "r1" .success,
          state := { authenticated := true, clientId := some "c1", role := some .control },
          clients := [("c1", { control := some 5, stream := some 6 })],
          sessions := [], effects := [] }) := by
  have h := c10_unknown_session_amended 5 "r1" "ghost"
    { authenticated := true, clientId := some "c1", role := some .control }
    [("c1", { control := some 5, stream := some 6 })] [] "tok" 1 2 "x" 80 24
    rfl rfl rfl
  exact ⟨h.1, h.2.2.2.1 6 (by decide)⟩

/--
**C8** (evaluation at the failing input).  The claim says the watcher ignores
every `*.tmp` file and deletes every other file it picks up whether or not
its contents validate, so no malformed or empty file remains.  The code does
neither: `pollNotifications` iterates over *all* directory entries with no
`.tmp` filter, and `processFile` returns *without deleting* when the file's
trimmed content is empty.  On a directory holding `1700000000-42.tmp`
(content `"ws-1\n"`) and `1700000001-43` (content `"  "`), one poll notifies
for and deletes the `.tmp` file and leaves the whitespace-only file in the
queue.
-/
theorem c8_notification_watcher_behavior :
    pollNotifications
        [{ name := "1700000000-42.tmp", content := some "ws-1\n" },
         { name := "1700000001-43", content := some "  " }]
      = ([{ name := "1700000001-43", content := some "  " }], ["ws-1"]) := by
  decide

/--
**C6.** While a crush turn is marked active (for a PTY with a workspace),
every output chunk whose length is within 2 bytes of the immediately
preceding chunk's length leaves the 5-second silence timer untouched and
emits nothing, whereas a chunk differing by more than 2 bytes (re)arms the
timer; when the timer fires with the turn still active, the detector emits
exactly one `awaiting_user` event with outcome `success` and clears the
active flag (and emits nothing at all when the turn is no longer active).
-/
theorem c6_crush_silence_detector :
    (∀ (st : CrushState) (w : String) (dataLen now newTimerId : Nat)
        (crushRunning : Bool),
      st.workspaceId = some w →
      st.crushTurnActive = true →
      0 ≤ st.crushPrevDataSize →
      ((dataLen : Int) - st.crushPrevDataSize).natAbs ≤ 2 →
      (handleCrushTurnSilence st dataLen now newTimerId crushRunning).1.crushSilenceTimer
          = st.crushSilenceTimer
        ∧ (handleCrushTurnSilence st dataLen now newTimerId crushRunning).2 = []
        ∧ (handleCrushTurnSilence st dataLen now newTimerId crushRunning).1.crushTurnActive
          = true)
    ∧ (∀ (st : CrushState) (w : String) (dataLen now newTimerId : Nat)
        (crushRunning : Bool),
        st.workspaceId = some w →
        st.crushTurnActive = true →
        0 ≤ st.crushPrevDataSize →
        2 < ((dataLen : Int) - st.crushPrevDataSize).natAbs →
        (handleCrushTurnSilence st dataLen now newTimerId crushRunning).1.crushSilenceTimer
            = some newTimerId
          ∧ (handleCrushTurnSilence st dataLen now newTimerId crushRunning).2 = [])
    ∧ (∀ (st : CrushState) (w : String) (now : Nat),
        st.workspaceId = some w →
        st.crushTurnActive = true →
        crushSilenceTimerFire st now
          = ({ st with
                crushTurnActive := false,
                crushSilenceTimer := none,
                crushPrevDataSize := -1,
                crushLastTurnEndedAt := now },
             [{ workspaceId := w, agent := "crush", etype := "awaiting_user",
                sessionId := some st.agentSessionId, outcome := some "success" }]))
    ∧ (∀ (st : CrushState) (now : Nat),
        st.crushTurnActive = false →
        crushSilenceTimerFire st now = (st, [])) := by
  refine ⟨?_, ?_, ?_, ?_⟩
  · intro st w dataLen now newTimerId crushRunning hw hactive hprev htol
    rw [handleCrushTurnSilence, hw]
    simp only [hactive, if_true]
    rw [if_pos ⟨hprev, htol⟩]
    exact ⟨rfl, rfl, rfl⟩
  · intro st w dataLen now newTimerId crushRunning hw hactive hprev htol
    rw [handleCrushTurnSilence, hw]
    simp only [hactive, if_true]
    rw [if_neg (by omega :
      ¬ (0 ≤ st.crushPrevDataSize
          ∧ ((dataLen : Int) - st.crushPrevDataSize).natAbs ≤ 2))]
    exact ⟨rfl, rfl⟩
  · intro st w now hw hactive
    rw [crushSilenceTimerFire, if_neg (by simp [hactive]), hw, emitTurnEvent]
  · intro st now hactive
    rw [crushSilenceTimerFire, if_pos (by simp [hactive])]

/-- Witness for C6: a concrete active state where a same-size frame leaves
the timer alone, a novel frame re-arms it, and the timer callback ends the
turn. -/
theorem c6_crush_silence_detector_witness :
    (handleCrushTurnSilence
        { workspaceId := some "w1", agentSessionId := "sess", crushTurnActive := true,
          crushSilenceTimer := some 3, crushLastTurnEndedAt := 0,
          crushLastRearmCheck := 0, crushPrevDataSize := 300 } 301 10000 4
        false).1.crushSilenceTimer = some 3
    ∧ (handleCrushTurnSilence
        { workspaceId := some "w1", agentSessionId := "sess", crushTurnActive := true,
          crushSilenceTimer := some 3, crushLastTurnEndedAt := 0,
          crushLastRearmCheck := 0, crushPrevDataSize := 300 } 450 10000 4
        false).1.crushSilenceTimer = some 4
    ∧ crushSilenceTimerFire
        { workspaceId := some "w1", agentSessionId := "sess", crushTurnActive := true,
          crushSilenceTimer := some 4, crushLastTurnEndedAt := 0,
          crushLastRearmCheck := 0, crushPrevDataSize := 300 } 20000
      = ({ workspaceId := some "w1", agentSessionId := "sess", crushTurnActive := false,
           crushSilenceTimer := none, crushLastTurnEndedAt := 20000,
           crushLastRearmCheck := 0, crushPrevDataSize := -1 },
         [{ workspaceId := "w1", agent := "crush", etype := "awaiting_user",
            sessionId := some "sess", outcome := some "success" }]) := by
  refine ⟨?_, ?_, ?_⟩
  · exact (c6_crush_silence_detector.1
      { workspaceId := some "w1", agentSessionId := "sess", crushTurnActive := true,
        crushSilenceTimer := some 3, crushLastTurnEndedAt := 0,
        crushLastRearmCheck := 0, crushPrevDataSize := 300 } "w1" 301 10000 4 false
      rfl rfl (by decide) (by decide)).1
  · exact (c6_crush_silence_detector.2.1
      { workspaceId := some "w1", agentSessionId := "sess", crushTurnActive := true,
        crushSilenceTimer := some 3, crushLastTurnEndedAt := 0,
        crushLastRearmCheck := 0, crushPrevDataSize := 300 } "w1" 450 10000 4 false
      rfl rfl (by decide) (by decide)).1
  · exact c6_crush_silence_detector.2.2.1
      { workspaceId := some "w1", agentSessionId := "sess", crushTurnActive := true,
        crushSilenceTimer := some 4, crushLastTurnEndedAt := 0,
        crushLastRearmCheck := 0, crushPrevDataSize := 300 } "w1" 20000 rfl rfl

lemma getLast?_cons_ne_nil {α : Type} (a : α) {l : List α} (h : l ≠ []) :
    (a :: l).getLast? = l.getLast? := by
  cases l with
  | nil => exact absurd rfl h
  | cons b bs => rw [List.getLast?_cons_cons]

lemma splitNl_ne_nil (l : List Char) : splitNl l ≠ [] := by
  induction l with
  | nil => simp [splitNl]
  | cons c rest ih =>
    rw [splitNl]
    by_cases hc : c = '\n'
    · simp [hc]
    · rw [if_neg hc]
      cases h : splitNl rest with
      | nil => simp
      | cons a as => simp

/-- A clean unfolding equation for the non-newline head case. -/
lemma splitNl_cons_ne (c : Char) (hc : c ≠ '\n') (l : List Char) :
    splitNl (c :: l) = (c :: ((splitNl l).headD [])) :: (splitNl l).tail := by
  rw [splitNl, if_neg hc]
  cases h : splitNl l with
  | nil => exact absurd h (splitNl_ne_nil l)
  | cons a as => rfl

lemma splitNl_no_newline (l : List Char) (h : '\n' ∉ l) : splitNl l = [l] := by
  induction l with
  | nil => rfl
  | cons c rest ih =>
    have hc : c ≠ '\n' := fun hc => h (by simp [hc])
    have hrest : '\n' ∉ rest := fun hm => h (by simp [hm])
    rw [splitNl_cons_ne c hc, ih hrest]
    rfl

lemma splitNl_newline_not_mem_getLast (l : List Char) :
    '\n' ∉ ((splitNl l).getLast?).getD [] := by
  induction l with
  | nil => simp [splitNl]
  | cons c rest ih =>
    by_cases hc : c = '\n'
    · rw [hc, splitNl, if_pos rfl, getLast?_cons_ne_nil _ (splitNl_ne_nil rest)]
      exact ih
    · rw [splitNl_cons_ne c hc]
      cases h : splitNl rest with
      | nil => exact absurd h (splitNl_ne_nil rest)
      | cons a as =>
        cases as with
        | nil =>
          rw [h] at ih
          simp only [List.getLast?_singleton, Option.getD_some] at ih
          simp only [List.headD_cons, List.tail_cons, List.getLast?_singleton,
            Option.getD_some]
          intro hmem
          rcases List.mem_cons.mp hmem with heq | hmem2
          · exact hc heq.symm
          · exact ih hmem2
        | cons b bs =>
          rw [h] at ih
          rw [getLast?_cons_ne_nil _ (l := b :: bs) (by simp)] at ih
          simp only [List.headD_cons, List.tail_cons]
          rwa [getLast?_cons_ne_nil _ (l := b :: bs) (by simp)]

lemma splitNl_first_line (l rest : List Char) (h : '\n' ∉ l) :
    splitNl (l ++ '\n' :: rest) = l :: splitNl rest := by
  induction l with
  | nil =>
    rw [List.nil_append, splitNl, if_pos rfl]
  | cons c l' ih =>
    have hc : c ≠ '\n' := fun hc => h (by simp [hc])
    have hl' : '\n' ∉ l' := fun hm => h (by simp [hm])
    rw [List.cons_append, splitNl_cons_ne c hc, ih hl']
    rfl

lemma splitNl_append (x y : List Char) :
    splitNl (x ++ y)
      = (splitNl x).dropLast ++ splitNl (((splitNl x).getLast?).getD [] ++ y) := by
  induction x with
  | nil => simp [splitNl]
  | cons c x' ih =>
    by_cases hc : c = '\n'
    · subst hc
      have h1 : splitNl ('\n' :: (x' ++ y)) = [] :: splitNl (x' ++ y) := by
        rw [splitNl, if_pos rfl]
      have h2 : splitNl ('\n' :: x') = [] :: splitNl x' := by
        rw [splitNl, if_pos rfl]
      rw [List.cons_append, h1, h2, ih,
        List.dropLast_cons_of_ne_nil (splitNl_ne_nil x'),
        getLast?_cons_ne_nil _ (splitNl_ne_nil x'), List.cons_append]
    · cases h : splitNl x' with
      | nil => exact absurd h (splitNl_ne_nil x')
      | cons a as =>
        cases as with
        | nil =>
          have hxy : splitNl (x' ++ y) = splitNl (a ++ y) := by
            rw [ih, h]
            simp
          rw [List.cons_append, splitNl_cons_ne c hc, hxy,
            splitNl_cons_ne c hc x', h]
          simp only [List.headD_cons, List.tail_cons, List.dropLast_single,
            List.nil_append, List.getLast?_singleton, Option.getD_some]
          rw [List.cons_append, splitNl_cons_ne c hc]
        | cons b bs =>
          have hbs : (b :: bs : List (List Char)) ≠ [] := by simp
          rw [List.cons_append, splitNl_cons_ne c hc, ih, h,
            splitNl_cons_ne c hc x', h]
          simp only [List.headD_cons, List.tail_cons]
          rw [List.dropLast_cons_of_ne_nil hbs, getLast?_cons_ne_nil _ hbs,
            List.dropLast_cons_of_ne_nil (by simp : (b :: bs : List (List Char)) ≠ []),
            getLast?_cons_ne_nil _ hbs]
          rw [List.cons_append]
          rfl

lemma ndjsonDrain_no_newline {F : Type} (decode : List Char → Option F)
    (buf : List Char) (h : '\n' ∉ buf) : ndjsonDrain decode buf = ([], buf) := by
  rw [ndjsonDrain, splitNl_no_newline buf h]
  simp

lemma ndjsonDrain_buffer_no_newline {F : Type} (decode : List Char → Option F)
    (buf : List Char) : '\n' ∉ (ndjsonDrain decode buf).2 := by
  rw [ndjsonDrain]
  exact splitNl_newline_not_mem_getLast buf

lemma ndjsonDrain_first_line {F : Type} (decode : List Char → Option F)
    (l rest : List Char) (h : '\n' ∉ l) :
    ndjsonDrain decode (l ++ '\n' :: rest)
      = (ndjsonLineFrames decode l ++ (ndjsonDrain decode rest).1,
         (ndjsonDrain decode rest).2) := by
  rw [ndjsonDrain, ndjsonDrain, splitNl_first_line l rest h,
    List.dropLast_cons_of_ne_nil (splitNl_ne_nil rest),
    getLast?_cons_ne_nil _ (splitNl_ne_nil rest), List.flatMap_cons]

lemma ndjsonDrain_append {F : Type} (decode : List Char → Option F) (x y : List Char) :
    ndjsonDrain decode (x ++ y)
      = ((ndjsonDrain decode x).1
          ++ (ndjsonDrain decode ((ndjsonDrain decode x).2 ++ y)).1,
         (ndjsonDrain decode ((ndjsonDrain decode x).2 ++ y)).2) := by
  rw [ndjsonDrain, ndjsonDrain, ndjsonDrain, splitNl_append x y,
    List.dropLast_append_of_ne_nil _ (splitNl_ne_nil _),
    List.getLast?_append_of_ne_nil _ (splitNl_ne_nil _),
    List.flatMap_append]

lemma ndjsonRun_general {F : Type} (decode : List Char → Option F) :
    ∀ (chunks : List (List Char)) (fs : List F) (buf : List Char), '\n' ∉ buf →
      chunks.foldl
        (fun acc c =>
          ((acc.1 ++ (ndjsonParse decode acc.2 c).1), (ndjsonParse decode acc.2 c).2))
        (fs, buf)
      = (fs ++ (ndjsonDrain decode (buf ++ chunks.flatten)).1,
         (ndjsonDrain decode (buf ++ chunks.flatten)).2) := by
  intro chunks
  induction chunks with
  | nil =>
    intro fs buf hbuf
    rw [List.foldl_nil, List.flatten_nil, List.append_nil,
      ndjsonDrain_no_newline decode buf hbuf, List.append_nil]
  | cons c cs ih =>
    intro fs buf hbuf
    rw [List.foldl_cons]
    rw [ih (fs ++ (ndjsonParse decode buf c).1) (ndjsonParse decode buf c).2
      (ndjsonDrain_buffer_no_newline decode (buf ++ c))]
    rw [List.flatten_cons, ← List.append_assoc]
    rw [ndjsonDrain_append decode (buf ++ c) cs.flatten]
    rw [List.append_assoc]
    rfl

/--
**C5.** For every input character stream and every way of splitting it into
chunks, the newline-delimited JSON parser yields the same frames (and ends
in the same buffer) as parsing the whole stream in one call; a frame is
produced for each complete newline-terminated line as soon as its newline is
seen, a non-decodable line is silently discarded without affecting later
frames, and a trailing partial line is buffered (the buffer never contains a
newline) until its newline arrives.  `JSON.parse` is abstracted by an
arbitrary `decode` function, with `none` modelling a parse error.
-/
theorem c5_ndjson_chunking :
    (∀ (F : Type) (decode : List Char → Option F) (chunks : List (List Char)),
      ndjsonRun decode chunks = ndjsonDrain decode chunks.flatten)
    ∧ (∀ (F : Type) (decode : List Char → Option F) (buf : List Char),
        '\n' ∉ (ndjsonDrain decode buf).2)
    ∧ (∀ (F : Type) (decode : List Char → Option F) (l rest : List Char),
        '\n' ∉ l →
        ndjsonDrain decode (l ++ '\n' :: rest)
          = (ndjsonLineFrames decode l ++ (ndjsonDrain decode rest).1,
             (ndjsonDrain decode rest).2)) := by
  refine ⟨?_, ?_, ?_⟩
  · intro F decode chunks
    rw [ndjsonRun, ndjsonRun_general decode chunks [] [] (by simp)]
    rw [List.nil_append, List.nil_append]
  · intro F decode buf
    exact ndjsonDrain_buffer_no_newline decode buf
  · intro F decode l rest h
    exact ndjsonDrain_first_line decode l rest h

/-- Witness for C5: a malformed line between two decodable lines, fed in
awkward chunks, yields the same frames as the whole stream. -/
theorem c5_ndjson_chunking_witness :
    ndjsonDrain (fun l => if l = ['a'] then some 1 else none)
        (['a'] ++ '\n' :: ['b'])
      = (ndjsonLineFrames (fun l => if l = ['a'] then some 1 else none) ['a']
          ++ (ndjsonDrain (fun l => if l = ['a'] then some 1 else none) ['b']).1,
         (ndjsonDrain (fun l => if l = ['a'] then some 1 else none) ['b']).2) :=
  c5_ndjson_chunking.2.2 Nat (fun l => if l = ['a'] then some 1 else none)
    ['a'] ['b'] (by decide)

lemma piMonoProcessLine_no_header (jparse : List Char → Option JsObject)
    (st : PiMonoState) (l : List Char) (hdet : st.piMonoJsonDetected = false)
    (hl : isSessionHeaderLine jparse l = false) :
    piMonoProcessLine jparse st l = (st, []) := by
  rw [piMonoProcessLine]
  by_cases hguard : jsTrim l = [] ∨ (jsTrim l).head? ≠ some '{'
  · rw [if_pos hguard]
  · rw [if_neg hguard]
    rw [isSessionHeaderLine, if_neg hguard] at hl
    cases hj : jparse (jsTrim l) with
    | none => rfl
    | some parsed =>
      rw [hj] at hl
      simp only [] at hl ⊢
      by_cases hty : jsTypeField parsed = ""
      · rw [if_pos hty]
      · rw [if_neg hty, if_pos (by simp [hdet])]
        cases hh : piMonoSessionHeaderId parsed with
        | none => rfl
        | some idS =>
          rw [hh] at hl
          simp at hl

lemma piMonoProcessLines_no_header (jparse : List Char → Option JsObject) :
    ∀ (lines : List (List Char)) (st : PiMonoState),
      st.piMonoJsonDetected = false →
      (∀ l ∈ lines, isSessionHeaderLine jparse l = false) →
      piMonoProcessLines jparse st lines = (st, [])
  | [], _, _, _ => rfl
  | l :: ls, st, hdet, h => by
    rw [piMonoProcessLines,
      piMonoProcessLine_no_header jparse st l hdet (h l (by simp)),
      piMonoProcessLines_no_header jparse ls st hdet
        (fun x hx => h x (List.mem_cons_of_mem _ hx))]
    rfl

lemma handlePiMono_no_header (jparse : List Char → Option JsObject)
    (st : PiMonoState) (d : List Char) (hdet : st.piMonoJsonDetected = false)
    (h : ∀ l ∈ piMonoStepLines st d, isSessionHeaderLine jparse l = false) :
    (handlePiMonoJsonOutput jparse st d).2 = []
    ∧ (handlePiMonoJsonOutput jparse st d).1.piMonoJsonDetected = false := by
  rw [handlePiMonoJsonOutput]
  cases hw : st.workspaceId with
  | none => exact ⟨rfl, hdet⟩
  | some w =>
    by_cases hd : d = []
    · rw [if_pos hd]
      exact ⟨rfl, hdet⟩
    · rw [if_neg hd]
      have hlines : ∀ l ∈ (piMonoSplitBuffer st.agentEventLineBuffer d).1,
          isSessionHeaderLine jparse l = false := by
        intro l hl
        apply h
        rw [piMonoStepLines, hw, if_neg hd]
        exact hl
      simp only []
      rw [piMonoProcessLines_no_header jparse
        ((piMonoSplitBuffer st.agentEventLineBuffer d).1)
        { workspaceId := some w, agentSessionId := st.agentSessionId,
          agentEventLineBuffer := (piMonoSplitBuffer st.agentEventLineBuffer d).2,
          piMonoJsonDetected := st.piMonoJsonDetected,
          piMonoTurnActive := st.piMonoTurnActive }
        hdet hlines]
      exact ⟨rfl, hdet⟩

lemma piMonoRun_no_header (jparse : List Char → Option JsObject) :
    ∀ (chunks : List (List Char)) (st : PiMonoState),
      st.piMonoJsonDetected = false →
      (∀ l ∈ (piMonoRun jparse st chunks).2.2, isSessionHeaderLine jparse l = false) →
      (piMonoRun jparse st chunks).2.1 = []
  | [], _, _, _ => rfl
  | d :: ds, st, hdet, h => by
    rw [piMonoRun] at h ⊢
    have hstep := handlePiMono_no_header jparse st d hdet
      (fun l hl => h l (List.mem_append_left _ hl))
    rw [hstep.1,
      piMonoRun_no_header jparse ds (handlePiMonoJsonOutput jparse st d).1 hstep.2
        (fun l hl => h l (List.mem_append_right _ hl))]
    rfl

lemma piMonoSessionHeaderId_type {o : JsObject} {idS : String}
    (h : piMonoSessionHeaderId o = some idS) : jsTypeField o = "session" := by
  rw [piMonoSessionHeaderId] at h
  by_cases hty : jsTypeField o = "session"
  · exact hty
  · rw [if_neg hty] at h
    cases h

/--
**C7 counterexample.** A stream whose first complete line parses as a
session-header object with the *empty* string id (`""` is a string, so the
header shape check passes), followed by a `turn_start` line.  The claim says
every turn event carries the header's id as the sessionId correlation key,
but the emitted `turn_started` event carries the PTY's preexisting session
id `"pty-1"`, not the header's `""` (the code only adopts the header id when
its trimmed value is non-empty).
-/
theorem c7_pimono_counterexample :
    (piMonoRun piMonoCexJparse (initPiMonoState (some "w") "pty-1")
        [piMonoCexHeaderLine ++ '\n' :: (piMonoCexTurnStartLine ++ ['\n'])]).2.1
      = [{ workspaceId := "w", agent := "pi-mono", etype := "turn_started",
           sessionId := some "pty-1", outcome := none }]
    ∧ ("pty-1" : String) ≠ "" := by
  constructor
  · decide
  · decide

/--
**C7 (amended).** For every PTY output stream fed to the structured-stream
(pi-mono) detector, no turn event is ever emitted before some complete line
parses as a session-header JSON object (type `"session"` with a string id,
string cwd and numeric version): if no processed line of the whole run
passes the header check, the run emits no events.  After the header is seen,
every line with type `turn_start` emits `turn_started` and every line with
type `turn_end` emits `awaiting_user` with outcome `success`, each carrying
the detector's current session id — which the header set to its own id
provided the header id is non-empty after trimming (otherwise the PTY's
preexisting id is kept).
-/
theorem c7_pimono_amended :
    (∀ (jparse : List Char → Option JsObject) (w sid : String)
        (chunks : List (List Char)),
      (∀ l ∈ (piMonoRun jparse (initPiMonoState (some w) sid) chunks).2.2,
          isSessionHeaderLine jparse l = false) →
      (piMonoRun jparse (initPiMonoState (some w) sid) chunks).2.1 = [])
    ∧ (∀ (jparse : List Char → Option JsObject) (st : PiMonoState) (l : List Char)
        (w : String) (o : JsObject),
        st.workspaceId = some w →
        st.piMonoJsonDetected = true →
        jsTrim l ≠ [] →
        (jsTrim l).head? = some '{' →
        jparse (jsTrim l) = some o →
        jsTypeField o = "turn_start" →
        piMonoProcessLine jparse st l
          = ({ st with piMonoTurnActive := true },
             [{ workspaceId := w, agent := "pi-mono", etype := "turn_started",
                sessionId := some st.agentSessionId, outcome := none }]))
    ∧ (∀ (jparse : List Char → Option JsObject) (st : PiMonoState) (l : List Char)
        (w : String) (o : JsObject),
        st.workspaceId = some w →
        st.piMonoJsonDetected = true →
        jsTrim l ≠ [] →
        (jsTrim l).head? = some '{' →
        jparse (jsTrim l) = some o →
        jsTypeField o = "turn_end" →
        piMonoProcessLine jparse st l
          = ({ st with piMonoTurnActive := false },
             [{ workspaceId := w, agent := "pi-mono", etype := "awaiting_user",
                sessionId := some st.agentSessionId, outcome := some "success" }]))
    ∧ (∀ (jparse : List Char → Option JsObject) (st : PiMonoState) (l : List Char)
        (o : JsObject) (idS : String),
        st.piMonoJsonDetected = false →
        jsTrim l ≠ [] →
        (jsTrim l).head? = some '{' →
        jparse (jsTrim l) = some o →
        piMonoSessionHeaderId o = some idS →
        jsTrimString idS ≠ "" →
        piMonoProcessLine jparse st l
          = ({ st with
                piMonoJsonDetected := true,
                agentSessionId := jsTrimString idS }, [])) := by
  refine ⟨?_, ?_, ?_, ?_⟩
  · intro jparse w sid chunks h
    exact piMonoRun_no_header jparse chunks (initPiMonoState (some w) sid) rfl h
  · intro jparse st l w o hw hdet hne hhead hj hty
    rw [piMonoProcessLine, if_neg (not_or.mpr ⟨hne, by simp [hhead]⟩), hj]
    simp only []
    rw [if_neg (by rw [hty]; decide), if_neg (by simp [hdet]), if_pos hty,
      hw, emitTurnEvent]
  · intro jparse st l w o hw hdet hne hhead hj hty
    rw [piMonoProcessLine, if_neg (not_or.mpr ⟨hne, by simp [hhead]⟩), hj]
    simp only []
    rw [if_neg (by rw [hty]; decide), if_neg (by simp [hdet]),
      if_neg (by rw [hty]; decide), if_pos hty, hw, emitTurnEvent]
  · intro jparse st l o idS hdet hne hhead hj hhid hid
    have hty := piMonoSessionHeaderId_type hhid
    rw [piMonoProcessLine, if_neg (not_or.mpr ⟨hne, by simp [hhead]⟩), hj]
    simp only []
    rw [if_neg (by rw [hty]; decide), if_pos (by simp [hdet]), hhid]
    simp only []
    rw [if_neg hid]

/-- Witness for C7 (amended): a concrete detected state consuming a concrete
`turn_start` line. -/
theorem c7_pimono_amended_witness :
    piMonoProcessLine piMonoCexJparse
        { workspaceId := some "w", agentSessionId := "sid-1",
          agentEventLineBuffer := [], piMonoJsonDetected := true,
          piMonoTurnActive := false } piMonoCexTurnStartLine
      = ({ workspaceId := some "w", agentSessionId := "sid-1",
           agentEventLineBuffer := [], piMonoJsonDetected := true,
           piMonoTurnActive := true },
         [{ workspaceId := "w", agent := "pi-mono", etype := "turn_started",
            sessionId := some "sid-1", outcome := none }]) :=
  c7_pimono_amended.2.1 piMonoCexJparse
    { workspaceId := some "w", agentSessionId := "sid-1",
      agentEventLineBuffer := [], piMonoJsonDetected := true,
      piMonoTurnActive := false } piMonoCexTurnStartLine "w"
    [("type", .str "turn_start")] rfl rfl (by decide) (by decide) (by decide)
    (by decide)

end Constellagent
